import Mathlib

/-!
Verification of the naming-layer state engine (blockstack) against its
natural-language specification.

The development shallowly embeds the Python sources:
* `src/blockstack/lib/nameset/namedb.py` (collision detection, commit steps,
  read paths, expiry/grace computation, the global read-write borrow protocol),
* `src/blockstack/lib/operations/__init__.py` (the `op_check` dispatch loop).

Python dicts are embedded as association lists over a flat value type `Val`;
fallible Python code (unbound names, failed asserts, `os.abort()`, wrong-arity
calls) is embedded with `Except PyErr`.  Functions that live in modules not
among the provided sources (the SQL-backed `db` module, the `config` epoch
tables, the hashing helpers, the `@state_preorder` and `@state_create`
decorators of `blockstack.lib.nameset.__init__`) are either taken as explicit
function parameters or modelled from the specification; each such definition
carries a doc comment saying so.
-/

namespace StacksSpec

/-- A flat Python value: strings, integers, booleans, and `None`.
All values the verified claims manipulate fall in this fragment. -/
inductive Val where
  | vstr (s : String)
  | vint (n : Int)
  | vbool (b : Bool)
  | vnone
deriving DecidableEq, Repr

/-- Python truthiness for `Val` (used by `if nameop['__collided__']`). -/
def Val.truthy : Val → Bool
  | .vstr s => !s.isEmpty
  | .vint n => n != 0
  | .vbool b => b
  | .vnone => false

/-- Lookup in an association list (first binding wins, as in a dict whose keys
are unique). -/
def alistGet {κ β : Type} [BEq κ] (l : List (κ × β)) (k : κ) : Option β :=
  (l.find? (fun p => p.1 == k)).map Prod.snd

/-- Key-membership in an association list. -/
def alistHas {κ β : Type} [BEq κ] (l : List (κ × β)) (k : κ) : Bool :=
  (l.find? (fun p => p.1 == k)).isSome

/-- Python-style `l[k] = v`: replace the binding in place (keys are unique in
a dict, so the first binding is the binding), or append a new one. -/
def alistSet {κ β : Type} [BEq κ] (l : List (κ × β)) (k : κ) (v : β) : List (κ × β) :=
  match l with
  | [] => [(k, v)]
  | p :: t => if p.1 == k then (k, v) :: t else p :: alistSet t k v

/-- A Python dict with string keys, embedded as an association list.
Key order models Python insertion order; keys are unique in well-formed dicts. -/
abbrev Dict := List (String × Val)

namespace Dict

/-- Dict lookup: `d.get(k)` / `d[k]` (the latter raising on `none`). -/
def get (d : Dict) (k : String) : Option Val :=
  alistGet d k

/-- Python `k in d`. -/
def hasKey (d : Dict) (k : String) : Bool :=
  alistHas d k

/-- Python `d[k] = v`. -/
def set (d : Dict) (k : String) (v : Val) : Dict :=
  alistSet d k v

/-- Python `del d[k]` (total: removes all bindings for `k`). -/
def erase (d : Dict) (k : String) : Dict :=
  d.filter (fun p => p.1 != k)

end Dict

/-! ### Association-list lemmas -/

theorem alistGet_set_self {κ β : Type} [BEq κ] [LawfulBEq κ] (k : κ) (v : β) :
    ∀ l : List (κ × β), alistGet (alistSet l k v) k = some v
  | [] => by simp [alistSet, alistGet, List.find?]
  | p :: t => by
    cases hp : (p.1 == k) with
    | true => simp [alistSet, alistGet, List.find?, hp]
    | false =>
      simp only [alistSet, hp, Bool.false_eq_true, if_neg, not_false_eq_true]
      unfold alistGet at alistGet_set_self ⊢
      simp [List.find?, hp, alistGet_set_self k v t]

theorem alistGet_set_other {κ β : Type} [BEq κ] [LawfulBEq κ] (k k2 : κ) (v : β)
    (hne : (k2 == k) = false) :
    ∀ l : List (κ × β), alistGet (alistSet l k v) k2 = alistGet l k2
  | [] => by
    have h1 : k2 ≠ k := by simpa using hne
    have hk : (k == k2) = false := by simp [Ne.symm h1]
    simp [alistSet, alistGet, List.find?, hk]
  | p :: t => by
    have h1 : k2 ≠ k := by simpa using hne
    have hkk2 : (k == k2) = false := by simp [Ne.symm h1]
    cases hp : (p.1 == k) with
    | true =>
      have hp1 : p.1 = k := by simpa using hp
      have hpb : (p.1 == k2) = false := by rw [hp1]; exact hkk2
      simp [alistSet, alistGet, List.find?, hp, hkk2, hpb]
    | false =>
      cases hq : (p.1 == k2) with
      | true => simp [alistSet, alistGet, List.find?, hp, hq]
      | false =>
        simp only [alistSet, hp, Bool.false_eq_true, if_neg, not_false_eq_true]
        unfold alistGet at alistGet_set_other ⊢
        simp [List.find?, hq, alistGet_set_other k k2 v hne t]

/-- Embedded Python failure modes. -/
inductive PyErr where
  | nameError       -- reference to an unbound name
  | typeError       -- e.g. calling a function with the wrong number of arguments
  | keyError        -- `d[k]` with `k` missing
  | assertionError  -- failed `assert`
  | procAbort       -- `os.abort()`
  | sysExit         -- `sys.exit(1)`
  | exception       -- explicit `raise Exception(...)`
deriving DecidableEq, Repr

/-! ## Collision detection (`BlockstackDB.check_collision_state`, namedb.py 528-577)

The collision state maps `block_id → history_id_key → list of history id values`.
`op_get_opcode_name` lives in `..config`, which is not among the provided
sources, so every definition that needs it takes it as the explicit parameter
`opname : Val → Option String` (it returns `None` for unrecognized op bytes). -/

/-- Inner collision table: `history_id_key → list of history id values`. -/
abbrev CollisionTable := List (String × List Val)

/-- Per-block collision state: `block_id → CollisionTable`. -/
abbrev CollisionState := List (Nat × CollisionTable)

/-- Lookup of a key in the inner collision table. -/
def ctGet (t : CollisionTable) (k : String) : Option (List Val) :=
  alistGet t k

/-- Update of the inner collision table (replace or append, dict-style). -/
def ctSet (t : CollisionTable) (k : String) (vs : List Val) : CollisionTable :=
  alistSet t k vs

/-- Lookup of a block in the collision state. -/
def csGet (cs : CollisionState) (b : Nat) : Option CollisionTable :=
  alistGet cs b

/-- Update of the collision state (replace or append, dict-style). -/
def csSet (cs : CollisionState) (b : Nat) (t : CollisionTable) : CollisionState :=
  alistSet cs b t

/-- Has the pair `(history_id_key, history_id)` already been recorded at `block_id`?
This is the test `history_id in collision_state[block_id][history_id_key]`
guarded by the two `has_key` checks (namedb.py 540-542). -/
def collision_seen (cs : CollisionState) (block_id : Nat) (history_id_key : String)
    (history_id : Val) : Bool :=
  match csGet cs block_id with
  | none => false
  | some t =>
    match ctGet t history_id_key with
    | none => false
    | some vs => history_id ∈ vs

/-- `BlockstackDB.nameop_set_collided` (namedb.py 1406-1413). -/
def nameop_set_collided (nameop : Dict) (history_id_key : String) (history_id : Val) : Dict :=
  ((nameop.set "__collided__" (Val.vbool true)).set
      "__collided_history_id_key__" (Val.vstr history_id_key)).set
    "__collided_history_id__" history_id

/-- `BlockstackDB.nameop_is_collided` (namedb.py 1416-1421):
`'__collided__' in nameop and nameop['__collided__']`. -/
def nameop_is_collided (nameop : Dict) : Bool :=
  match nameop.get "__collided__" with
  | none => false
  | some v => v.truthy

/-- The body of the `for prev_op in checked_ops` loop of `check_collision_state`
(namedb.py 562-575), for one previously checked op.  Reading `prev_op['op']`
raises `KeyError` when the key is absent. -/
def collision_mark_one (opname : Val → Option String) (history_id_key : String)
    (history_id : Val) (affected_opcodes : List String) (prev_op : Dict) :
    Except PyErr Dict :=
  match prev_op.get "op" with
  | none => .error .keyError
  | some opv =>
    match opname opv with
    | none => .ok prev_op        -- opcode `None` is never in `affected_opcodes`
    | some prev_opcode =>
      if prev_opcode ∉ affected_opcodes then .ok prev_op
      else
        match prev_op.get history_id_key with
        | none => .ok prev_op    -- `history_id_key not in prev_op`
        | some v =>
          if v = history_id then .ok (nameop_set_collided prev_op history_id_key history_id)
          else .ok prev_op

/-- `BlockstackDB.check_collision_state` (namedb.py 528-577).
Returns `(rc, new collision state, new checked_ops)`. -/
def check_collision_state (opname : Val → Option String) (collision_state : CollisionState)
    (history_id_key : String) (history_id : Val) (block_id : Nat)
    (checked_ops : List Dict) (affected_opcodes : List String) :
    Except PyErr (Bool × CollisionState × List Dict) :=
  let step : Bool × CollisionState :=
    match csGet collision_state block_id with
    | some t =>
      match ctGet t history_id_key with
      | some vs =>
        if history_id ∈ vs then (true, collision_state)
        else (false, csSet collision_state block_id (ctSet t history_id_key (vs ++ [history_id])))
      | none => (false, csSet collision_state block_id (ctSet t history_id_key [history_id]))
    | none => (false, csSet collision_state block_id [(history_id_key, [history_id])])
  if !step.1 then
    .ok (false, step.2, checked_ops)
  else do
    let marked ← checked_ops.mapM
      (collision_mark_one opname history_id_key history_id affected_opcodes)
    .ok (true, step.2, marked)

/-- `BlockstackDB.check_collision` (namedb.py 611-620): delegates to
`check_collision_state` on the engine-owned collision map. -/
def check_collision (opname : Val → Option String) (collisions : CollisionState)
    (history_id_key : String) (history_id : Val) (block_id : Nat)
    (checked_ops : List Dict) (affected_opcodes : List String) :
    Except PyErr (Bool × CollisionState × List Dict) :=
  check_collision_state opname collisions history_id_key history_id block_id
    checked_ops affected_opcodes

/-- Modelled from the spec: the `@state_preorder` and `@state_create` decorators of
`blockstack.lib.nameset.__init__` are not among the provided sources; per the spec
("The engine marks both the incumbent and the new op as `__collided__`, which causes
both to be dropped at commit"), when `check_collision` reports a collision the
decorator marks the nameop currently being checked as collided as well.  The
history id value is read off the new nameop itself (`KeyError` if absent). -/
def engine_check_collision (opname : Val → Option String) (collisions : CollisionState)
    (history_id_key : String) (block_id : Nat) (checked_ops : List Dict)
    (affected_opcodes : List String) (nameop : Dict) :
    Except PyErr (Bool × CollisionState × List Dict × Dict) :=
  match nameop.get history_id_key with
  | none => .error .keyError
  | some history_id => do
    let (rc, cs2, checked2) ←
      check_collision opname collisions history_id_key history_id block_id
        checked_ops affected_opcodes
    if rc then
      .ok (true, cs2, checked2, nameop_set_collided nameop history_id_key history_id)
    else
      .ok (false, cs2, checked2, nameop)

/-! ## The check dispatch loop (`op_check`, operations/__init__.py 219-304)

The per-opcode check methods live in the operation modules, which are not among
the provided sources; `op_check` is embedded relative to an arbitrary method
table `methods : String → Option (Dict → Bool × Dict)`, where a method takes
the cloned nameop and returns `(rc, mutated clone)` (the Python methods mutate
the clone in place).  The loop is `while count < 3`, so it is embedded with a
fuel argument `fuel = 3 - count`; the final `assert count < 3` fires exactly
when the loop finished an iteration with `count = 3` or exited by its
condition, which in the embedding is the case `fuel = 0`. -/

/-- Outcome of `op_check`: a normal return of `(rc, nameop)`, or a fatal
`sys.exit(1)` (from the closing `assert count < 3` or an internal BUG assert). -/
inductive OpCheckOutcome where
  | ret (rc : Bool) (nameop : Dict)
  | fatal
deriving DecidableEq, Repr

/-- Resolve the opcode of a nameop at the top of each `op_check` iteration
(operations/__init__.py 243-255): use `nameop['opcode']` when present (the
value must be a string key into `CHECK_METHODS`), else derive it from
`nameop['op']` via `op_get_opcode_name` (fatal if absent or unknown). -/
def op_check_resolve_opcode (opname : Val → Option String) (nameop : Dict) :
    Option String :=
  match nameop.get "opcode" with
  | some (Val.vstr s) => some s
  | some _ => none
  | none =>
    match nameop.get "op" with
    | none => none
    | some v => opname v

/-- One pass structure of the `while count < 3` loop of `op_check`
(operations/__init__.py 235-289), together with the closing
`assert count < 3`.  The second component of the result counts invocations of
the per-opcode check method.  `fuel` is the number of loop iterations the
condition still allows; a break that leaves `count = 3` (i.e. `fuel = 0` at the
iteration start... the iteration consuming the last unit of fuel) trips the
closing assert and is fatal. -/
def op_check_loop (opname : Val → Option String)
    (methods : String → Option (Dict → Bool × Dict)) :
    Nat → Dict → Nat → OpCheckOutcome × Nat
  | 0, _, calls => (.fatal, calls)
  | fuel + 1, nameop, calls =>
    match op_check_resolve_opcode opname nameop with
    | none => (.fatal, calls)
    | some opcode =>
      match methods opcode with
      | none => (.fatal, calls)
      | some check_method =>
        let res := check_method nameop
        let rc := res.1
        let clone := res.2
        let calls' := calls + 1
        if !rc then
          -- `break` with `rc = False`; fatal iff this was the third iteration
          (if fuel = 0 then .fatal else .ret false nameop, calls')
        else
          match clone.get "opcode" with
          | none =>
            -- no type-cast: `nameop.clear(); nameop.update(nameop_clone); break`
            (if fuel = 0 then .fatal else .ret true clone, calls')
          | some new_opcode =>
            if new_opcode = Val.vstr opcode then
              (if fuel = 0 then .fatal else .ret true clone, calls')
            else
              -- type-cast: `nameop['opcode'] = new_opcode; continue`
              op_check_loop opname methods fuel (nameop.set "opcode" new_opcode) calls'

/-- `op_check` (operations/__init__.py 219-304), up to the final
canonicalization step (`op_canonicalize` and the `UNSTORED_CANONICAL_FIELDS`
strip, which both leave the accept/reject outcome and the call count
unchanged).  Returns the outcome together with the number of times a
per-opcode check method was invoked. -/
def op_check (opname : Val → Option String)
    (methods : String → Option (Dict → Bool × Dict)) (nameop : Dict) :
    OpCheckOutcome × Nat :=
  op_check_loop opname methods 3 nameop 0

/-! ## The `autofill("opcode")` decorator (namedb.py 53-71)

Every reader of the store that returns an operation record is wrapped with
`autofill("opcode")`: `get_name`, `get_namespace`, `get_namespace_op_state`,
`get_name_by_preorder`, `get_namespace_by_preorder`, `get_name_preorder`,
`get_namespace_preorder`, `get_namespace_reveal`.  The embedding below is the
wrapper's behaviour on the record returned by the underlying reader; it is
therefore a statement about all eight readers at once. -/

/-- The `autofill("opcode")` wrapper applied to the record `rec` produced by the
underlying reader (namedb.py 58-69).  Faithful branch structure:
* `rec is None` → returned as is;
* `'opcode' not in rec` → `assert 'op' in rec` (AssertionError if absent), then
  `rec['opcode'] = op_get_opcode_name(rec['op'])` (which may assign `None`);
* `'opcode' in rec` → the `for` loop's `else` branch fires and raises
  `Exception("Unknown autofill field 'opcode'")`. -/
def autofill_opcode (opname : Val → Option String) (rec : Option Dict) :
    Except PyErr (Option Dict) :=
  match rec with
  | none => .ok none
  | some r =>
    if r.hasKey "opcode" then .error .exception
    else
      match r.get "op" with
      | none => .error .assertionError
      | some v =>
        .ok (some (r.set "opcode"
          (match opname v with
           | some s => Val.vstr s
           | none => Val.vnone)))

/-! ## `is_namespace_preordered` and the arity of `get_namespace_preorder`

`BlockstackDB.get_namespace_preorder` (namedb.py 1093-1104) is declared as
`def get_namespace_preorder( self, namespace_id_hash )`: exactly one positional
argument besides `self`.  `BlockstackDB.is_namespace_preordered`
(namedb.py 1306-1315) invokes it as
`self.get_namespace_preorder( self.db, namespace_id_hash, self.lastblock )`:
three positional arguments besides `self`.  The dynamic call is embedded with
an explicit argument list so that the arity mismatch is visible. -/

/-- A positional argument of an embedded Python method call. -/
inductive CallArg where
  | dbArg                 -- `self.db`, the sqlite connection object
  | strArg (s : String)
  | natArg (n : Nat)
deriving DecidableEq, Repr

/-- The bound method `self.get_namespace_preorder` applied to a positional
argument list (the `autofill` wrapper forwards `*args` unchanged to the
underlying reader).  The reader's body calls
`namedb_get_namespace_preorder( self.db, namespace_id_hash, self.lastblock )`;
that db-module function is not among the provided sources and is abstracted as
`lookup : String → Nat → Option Dict`, per the spec read operation
`get_namespace_preorder(hash, at_height)`.  Any argument list that is not
exactly one `namespace_id_hash` raises `TypeError`. -/
def get_namespace_preorder_call (opname : Val → Option String)
    (lookup : String → Nat → Option Dict) (lastblock : Nat)
    (args : List CallArg) : Except PyErr (Option Dict) :=
  match args with
  | [CallArg.strArg namespace_id_hash] =>
    autofill_opcode opname (lookup namespace_id_hash lastblock)
  | _ => .error .typeError

/-- `BlockstackDB.is_namespace_preordered` (namedb.py 1306-1315): calls
`self.get_namespace_preorder( self.db, namespace_id_hash, self.lastblock )`
and maps the record to a boolean. -/
def is_namespace_preordered (opname : Val → Option String)
    (lookup : String → Nat → Option Dict) (lastblock : Nat)
    (namespace_id_hash : String) : Except PyErr Bool :=
  match get_namespace_preorder_call opname lookup lastblock
      [CallArg.dbArg, CallArg.strArg namespace_id_hash, CallArg.natArg lastblock] with
  | .error e => .error e
  | .ok none => .ok false
  | .ok (some _) => .ok true

/-! ## The name/namespace store and read paths (C4-C7)

The SQL-backed db module (`from db import *`) and the `..config` epoch tables
are not among the provided sources.  Records are embedded as structures with
the columns the claims touch; the db read functions are modelled from the
spec (marked as such below); the epoch functions and `op_get_opcode_name` are
carried in an explicit `EpochConfig` parameter. -/

/-- Modelled from the spec: the `NAMESPACE_READY` op tag (a one-byte opcode
from `..config`, which is not among the provided sources).  Only (in)equality
of op tags matters to the claims. -/
def NAMESPACE_READY : String := "!"

/-- Modelled from the spec: the `NAMESPACE_REVEAL` op tag (see
`NAMESPACE_READY`). -/
def NAMESPACE_REVEAL : String := "&"

/-- Modelled from the spec: the epoch- and pricing-rule functions of
`..config` (not among the provided sources) — "Pure functions of height that
yield namespace-lifetime multipliers, grace periods, ..." — plus
`op_get_opcode_name` restricted to op-tag strings, and the namespace-reveal
expiry window. -/
structure EpochConfig where
  lifetimeMultiplier : Nat → String → Nat   -- get_epoch_namespace_lifetime_multiplier(block, ns_id)
  lifetimeGracePeriod : Nat → String → Nat  -- get_epoch_namespace_lifetime_grace_period(block, ns_id)
  opcodeName : String → Option String       -- op_get_opcode_name on an op tag
  namespaceRevealExpire : Nat               -- blocks a revealed namespace lives unreadied

/-- A current name record (`name_records` table), with the columns the claims
read. -/
structure NameRec where
  name : String
  op : String
  sender : String
  address : String
  first_registered : Nat
  last_renewed : Nat
  revoked : Bool
deriving DecidableEq, Repr

/-- A current namespace record (`namespaces` table). -/
structure NamespaceRec where
  namespace_id : String
  op : String
  reveal_block : Nat
  ready_block : Nat
  lifetime : Nat
deriving DecidableEq, Repr

/-- A live name-preorder row (`preorders` table). -/
structure PreorderRec where
  preorder_hash : String
  block_number : Nat
  op : String
deriving DecidableEq, Repr

/-- The record store: current rows of the three tables the claims read. -/
structure Store where
  names : List NameRec
  namespaces : List NamespaceRec
  preorders : List PreorderRec
deriving Repr

/-- Modelled from the spec: `get_namespace_from_name` (from `..scripts`, not
among the provided sources): a name is a `label.namespace_id` pair; the
namespace id is the part after the last dot (the longest dot-free suffix). -/
def get_namespace_from_name (name : String) : String :=
  String.mk ((name.data.reverse.takeWhile (fun c => c ≠ '.')).reverse)

/-- Raw row lookup of a namespace by id. -/
def store_namespace_row (st : Store) (namespace_id : String) : Option NamespaceRec :=
  st.namespaces.find? (fun ns => ns.namespace_id == namespace_id)

/-- The expiry height of a name in a ready namespace:
`max(namespace.ready_block, name.last_renewed) + lifetime * multiplier(H)`
(spec §3, name invariant 4). -/
def name_expire_block (cfg : EpochConfig) (ns : NamespaceRec) (rec : NameRec)
    (block_number : Nat) : Nat :=
  max ns.ready_block rec.last_renewed +
    ns.lifetime * cfg.lifetimeMultiplier block_number ns.namespace_id

/-- Modelled from the spec: the computed expiry filter of the db read paths
("Expiry semantics are computed — not stored — from
`(namespace, name, H, epoch-multipliers)`; read paths filter accordingly unless
`include_expired=True`", spec §4.5).  A name in a ready namespace is dropped
from default reads once its renewal deadline (`expire_block + grace(H)`) has
passed, so that it stays visible throughout the grace period, during which it
is "renewable by the owner only" (spec §8); with the zero grace period of the
early epochs this coincides with dropping at `expire_block`.  Names in revealed
but not ready namespaces never expire unless the namespace itself does
(namedb.py 1216-1217). -/
def name_expired (cfg : EpochConfig) (st : Store) (rec : NameRec) (block_number : Nat) : Bool :=
  match store_namespace_row st (get_namespace_from_name rec.name) with
  | none => false
  | some ns =>
    if ns.op == NAMESPACE_READY then
      decide (name_expire_block cfg ns rec block_number +
        cfg.lifetimeGracePeriod block_number ns.namespace_id ≤ block_number)
    else if ns.op == NAMESPACE_REVEAL then
      decide (ns.reveal_block + cfg.namespaceRevealExpire ≤ block_number)
    else false

/-- Modelled from the spec: `namedb_get_name` (db module, not among the
provided sources): `get_name(name, at_height, include_expired,
include_history)` (spec §4.5) — the current row for the name, absent before its
registration and filtered by the computed expiry unless `include_expired`.
`include_history` only controls whether the history rows are attached and does
not affect whether a record is returned. -/
def namedb_get_name (cfg : EpochConfig) (st : Store) (name : String) (block_number : Nat)
    (include_expired : Bool := false) (_include_history : Bool := true) : Option NameRec :=
  match st.names.find? (fun r => r.name == name) with
  | none => none
  | some rec =>
    if block_number < rec.first_registered then none
    else if include_expired then some rec
    else if name_expired cfg st rec block_number then none
    else some rec

/-- Modelled from the spec: `namedb_get_namespace` (db module, not among the
provided sources): the namespace record, revealed or ready, live at the given
height; an expired reveal is filtered out unless `include_expired`. -/
def namedb_get_namespace (cfg : EpochConfig) (st : Store) (namespace_id : String)
    (block_number : Nat) (include_expired : Bool := false) : Option NamespaceRec :=
  match store_namespace_row st namespace_id with
  | none => none
  | some ns =>
    if include_expired then some ns
    else if ns.op == NAMESPACE_REVEAL &&
        decide (ns.reveal_block + cfg.namespaceRevealExpire ≤ block_number) then none
    else some ns

/-- Modelled from the spec: `namedb_get_namespace_ready` (db module, not among
the provided sources): the namespace record if it has been declared ready. -/
def namedb_get_namespace_ready (st : Store) (namespace_id : String) : Option NamespaceRec :=
  st.namespaces.find? (fun ns => ns.namespace_id == namespace_id && ns.op == NAMESPACE_READY)

/-- `BlockstackDB.get_name` (namedb.py 713-729) over the structured store:
`namedb_get_name` with `autofill("opcode")` pairing the record with
`op_get_opcode_name(rec.op)` (structured records never carry an `opcode`
column — `sanitize_op` strips it before commit — so the fill branch of the
wrapper always applies). -/
def BlockstackDB_get_name (cfg : EpochConfig) (st : Store) (lastblock : Nat)
    (name : String) (include_expired : Bool := false) (include_history : Bool := true) :
    Option (NameRec × Option String) :=
  (namedb_get_name cfg st name lastblock include_expired include_history).map
    (fun rec => (rec, cfg.opcodeName rec.op))

/-- `BlockstackDB.get_namespace` (namedb.py 665-675): the ready namespace, with
the autofill pairing. -/
def BlockstackDB_get_namespace (cfg : EpochConfig) (st : Store) (namespace_id : String) :
    Option (NamespaceRec × Option String) :=
  (namedb_get_namespace_ready st namespace_id).map (fun ns => (ns, cfg.opcodeName ns.op))

/-- `BlockstackDB.is_name_expired` (namedb.py 1213-1223):
`namedb_get_name( cur, name, block_number ) is None`. -/
def is_name_expired (cfg : EpochConfig) (st : Store) (name : String) (block_number : Nat) : Bool :=
  (namedb_get_name cfg st name block_number).isNone

/-- The result of `get_name_deadlines`. -/
structure Deadlines where
  expire_block : Nat
  renewal_deadline : Nat
deriving DecidableEq, Repr

/-- `BlockstackDB.get_name_deadlines` (namedb.py 1226-1248). -/
def get_name_deadlines (cfg : EpochConfig) (name_rec : NameRec)
    (namespace_rec : NamespaceRec) (block_number : Nat) : Option Deadlines :=
  if namespace_rec.op ≠ NAMESPACE_READY then none
  else
    let m := cfg.lifetimeMultiplier block_number namespace_rec.namespace_id
    let g := cfg.lifetimeGracePeriod block_number namespace_rec.namespace_id
    let expire_block := max namespace_rec.ready_block name_rec.last_renewed +
      namespace_rec.lifetime * m
    some ⟨expire_block, expire_block + g⟩

/-- `BlockstackDB.is_name_in_grace_period` (namedb.py 1251-1276). -/
def is_name_in_grace_period (cfg : EpochConfig) (st : Store) (name : String)
    (block_number : Nat) : Bool :=
  match namedb_get_name cfg st name block_number false with
  | none => false
  | some name_rec =>
    match namedb_get_namespace cfg st (get_namespace_from_name name) block_number with
    | none => false
    | some namespace_rec =>
      match get_name_deadlines cfg name_rec namespace_rec block_number with
      | none => false
      | some grace_info =>
        decide (block_number ≥ grace_info.expire_block ∧
          block_number < grace_info.renewal_deadline)

/-! ## Reverse consensus-hash derivation (C6)

`BlockstackDB.get_name_from_name_consensus_hash` (namedb.py 1012-1049).
The hash `hash256_trunc128` (from `..hashing`), the window width
`virtualchain_hooks.get_valid_transaction_window()` and the snapshot lookup
`self.get_consensus_at` (virtualchain), and the owned-name query
`namedb_get_names_by_sender` (db module) are not among the provided sources;
they enter as the parameters `hashFn`, `W`, `getConsensusAt` and
`names_by_sender`.  Block indices are integers, as in Python
(`range(block_id - W, block_id + 1)` can start below zero). -/

/-- The candidate consensus hashes the code collects (namedb.py 1035-1039):
`get_consensus_at(i)` for `i` in `range(block_id - W, block_id + 1)`, skipping
`None` and duplicates, in scan order. -/
def possible_consensus_hashes (W : Nat) (getConsensusAt : Int → Option String)
    (block_id : Int) : List String :=
  ((List.range (W + 1)).map (fun k => block_id - (W : Int) + k)).foldl
    (fun acc i =>
      match getConsensusAt i with
      | some ch => if ch ∈ acc then acc else acc ++ [ch]
      | none => acc) []

/-- The same candidate window without deduplication: the consensus hashes of
heights `block_id - W` through `block_id` inclusive (`W + 1` heights). -/
def scanned_window_hashes (W : Nat) (getConsensusAt : Int → Option String)
    (block_id : Int) : List String :=
  ((List.range (W + 1)).map (fun k => block_id - (W : Int) + k)).filterMap getConsensusAt

/-- The consensus hashes of the last `W` blocks ending at `block_id` (heights
`block_id - W + 1` through `block_id`), the window as the claim words it;
stated for comparison with the window the code actually scans. -/
def last_W_consensus_hashes (W : Nat) (getConsensusAt : Int → Option String)
    (block_id : Int) : List String :=
  ((List.range W).map (fun k => block_id - (W : Int) + 1 + k)).filterMap getConsensusAt

/-- `BlockstackDB.get_name_from_name_consensus_hash` (namedb.py 1012-1049):
returns the first `(name, consensus_hash)` with
`hash256_trunc128(name + consensus_hash) == name_consensus_hash`, scanning the
sender's owned names in order and, inside, the candidate window in order;
`(None, None)` when the sender owns no names or nothing matches. -/
def get_name_from_name_consensus_hash (hashFn : String → String) (W : Nat)
    (getConsensusAt : Int → Option String) (names_by_sender : Option (List String))
    (name_consensus_hash : String) (block_id : Int) :
    Option String × Option String :=
  match names_by_sender with
  | none => (none, none)
  | some names =>
    let possible := possible_consensus_hashes W getConsensusAt block_id
    match names.findSome? (fun name =>
        (possible.find? (fun ch => hashFn (name ++ ch) == name_consensus_hash)).map
          (fun ch => (name, ch))) with
    | some nc => (some nc.1, some nc.2)
    | none => (none, none)

/-! ## `get_name_preorder` (C7, namedb.py 1052-1090)

`hash_name` (from `..scripts`/`..hashing`) and `namedb_get_name_preorder`
(db module) are not among the provided sources; the former enters as the
parameter `hashName`, the latter is modelled from the spec. -/

/-- Modelled from the spec: `namedb_get_name_preorder` (db module, not among
the provided sources): `get_name_preorder(hash, at_height)` (spec §4.5) — the
live preorder row with the given preorder hash. -/
def namedb_get_name_preorder (st : Store) (preorder_hash : String)
    (_lastblock : Nat) : Option PreorderRec :=
  st.preorders.find? (fun p => p.preorder_hash == preorder_hash)

/-- `BlockstackDB.get_name_preorder` (namedb.py 1052-1090), with the
`autofill("opcode")` pairing on the returned preorder. -/
def get_name_preorder (cfg : EpochConfig) (hashName : String → String → String → String)
    (st : Store) (lastblock : Nat) (name sender_script_pubkey register_addr : String)
    (include_failed : Bool := false) : Option (PreorderRec × Option String) :=
  -- name registered and not expired?
  let name_rec := BlockstackDB_get_name cfg st lastblock name
  if name_rec.isSome && !include_failed then none
  else
    -- what namespace are we in?
    let namespace_id := get_namespace_from_name name
    match BlockstackDB_get_namespace cfg st namespace_id with
    | none => none
    | some nsa =>
      let preorder_hash := hashName name sender_script_pubkey register_addr
      match namedb_get_name_preorder st preorder_hash lastblock with
      | none => none
      | some preorder =>
        -- preorder must be younger than the namespace lifetime window
        let m := cfg.lifetimeMultiplier lastblock namespace_id
        if preorder.block_number + nsa.1.lifetime * m ≤ lastblock then none
        else some (preorder, cfg.opcodeName preorder.op)

/-! ## The commit step (C1): `commit_state_preorder` and `commit_state_create`

(namedb.py 1534-1653.)  The write-side db functions (`namedb_preorder_insert`,
`namedb_state_create`, `namedb_state_create_as_import`) and the
`@state_create` decorator helpers (`state_create_is_valid`,
`state_create_get_preorder`, `state_create_get_table`,
`state_create_get_history_id_key`, from `blockstack.lib.nameset.__init__`) are
not among the provided sources and are modelled from the spec below. -/

/-- `DISPOSITION_RW` (namedb.py 45). -/
def DISPOSITION_RW : String := "readwrite"

/-- `DISPOSITION_RO` (namedb.py 44). -/
def DISPOSITION_RO : String := "readonly"

/-- Modelled from the spec: `OPCODE_NAME_STATE_IMPORTS` (from `..config`, not
among the provided sources): `NAME_IMPORT` is the one creation opcode that
bypasses the preorder requirement (spec §4.1 step 4). -/
def OPCODE_NAME_STATE_IMPORTS : List String := ["NAME_IMPORT"]

/-- Modelled from the spec: `get_state_invariant_tags` (from
`blockstack.lib.nameset.__init__`, not among the provided sources): the
invariant tags the `@state_*` decorators add to a nameop and `sanitize_op`
strips before committing ("strip any `UNSTORED_CANONICAL_FIELDS` before
persisting"; "Decorator-driven autofill and invariant-tagging ... inject
`opcode`, strip `__collided__` tags", spec §9). -/
def state_invariant_tags : List String :=
  ["__collided__", "__collided_history_id_key__", "__collided_history_id__",
   "__state_preorder__", "__state_create__", "__state_transition__",
   "__preorder__", "__prior_history__", "__table__", "__history_id_key__"]

/-- `BlockstackDB.sanitize_op` (namedb.py 488-525): strip the invariant tags,
fill every absent mutate field of the opcode family with `None`, and drop the
`opcode` field.  `mutate_fields` stands for `op_get_mutate_fields`
(operations/__init__.py 307-319), which raises for an unknown opcode family;
`op_data['op']` raises `KeyError` when absent. -/
def sanitize_op (opname : Val → Option String)
    (mutate_fields : String → Option (List String)) (op_data : Dict) :
    Except PyErr Dict :=
  let d1 := state_invariant_tags.foldl (fun d tag => d.erase tag) op_data
  match d1.get "op" with
  | none => .error .keyError
  | some opv =>
    match opname opv with
    | none => .error .exception
    | some opcode_family =>
      match mutate_fields opcode_family with
      | none => .error .exception
      | some mfs =>
        let d2 := mfs.foldl (fun d mf => if d.hasKey mf then d else d.set mf Val.vnone) d1
        .ok (d2.erase "opcode")

/-- The commit-side store: the rows of the preorder table and of the two
state-create destination tables. -/
structure CommitStore where
  preorder_rows : List Dict
  name_rows : List Dict
  namespace_rows : List Dict
deriving DecidableEq, Repr

/-- Insert a committed row into a destination table. -/
def insertRow (st : CommitStore) (table : String) (row : Dict) : CommitStore :=
  if table == "name_records" then { st with name_rows := st.name_rows ++ [row] }
  else { st with namespace_rows := st.namespace_rows ++ [row] }

/-- Modelled from the spec: `namedb_preorder_insert` (db module, not among the
provided sources): "state_preorder: insert a new preorder row; fail-abort on
duplicate live `preorder_hash`" (spec §4.1 step 4).  `none` models the failed
return code that makes the caller abort. -/
def namedb_preorder_insert (st : CommitStore) (commit_preorder : Dict) :
    Option CommitStore :=
  match commit_preorder.get "preorder_hash" with
  | none => none
  | some ph =>
    if st.preorder_rows.any (fun row => row.get "preorder_hash" == some ph) then none
    else some { st with preorder_rows := st.preorder_rows ++ [commit_preorder] }

/-- Modelled from the spec: `namedb_state_create` (db module, not among the
provided sources): "state_create: consume a matching live preorder (lookup by
`preorder_hash` ...), then insert the new name/namespace record" (spec §4.1
step 4).  Fails (`none`) when no live preorder row carries the hash. -/
def namedb_state_create (st : CommitStore) (initial_state : Dict) (preorder : Dict)
    (table : String) : Option (CommitStore × Dict) :=
  match preorder.get "preorder_hash" with
  | none => none
  | some ph =>
    if st.preorder_rows.any (fun row => row.get "preorder_hash" == some ph) then
      let st2 := { st with
        preorder_rows := st.preorder_rows.filter (fun row => row.get "preorder_hash" != some ph) }
      some (insertRow st2 table initial_state, initial_state)
    else none

/-- Modelled from the spec: `namedb_state_create_as_import` (db module, not
among the provided sources): "For `NAME_IMPORT`, bypass the preorder
requirement" (spec §4.1 step 4). -/
def namedb_state_create_as_import (st : CommitStore) (initial_state : Dict)
    (table : String) : Option (CommitStore × Dict) :=
  some (insertRow st table initial_state, initial_state)

/-- The value a commit step returns: the Python code returns the empty list
`[]` in `commit_state_preorder`'s collided branch, the empty dict in
`commit_state_create`'s collided branch, and the committed record otherwise. -/
inductive CommitResult where
  | emptyList
  | emptyDict
  | opdata (d : Dict)
deriving DecidableEq, Repr

/-- `BlockstackDB.commit_state_preorder` (namedb.py 1534-1564).  In the
collided branch the source executes
`self.log_reject( block_id, nameop['vtxindex'], nameop['op'], nameop )`:
`block_id` is bound nowhere in the method (the parameter is
`current_block_number`), so argument evaluation raises `NameError` before the
`return []` on the next line is reached and before anything is written. -/
def commit_state_preorder (opname : Val → Option String)
    (mutate_fields : String → Option (List String)) (disposition : String)
    (st : CommitStore) (nameop : Dict) (_current_block_number : Nat) :
    Except PyErr (CommitStore × CommitResult) :=
  if disposition ≠ DISPOSITION_RW then .error .procAbort
  else if nameop_is_collided nameop then .error .nameError
  else
    -- `log_accept( current_block_number, nameop['vtxindex'], nameop['op'], nameop )`
    match nameop.get "vtxindex" with
    | none => .error .keyError
    | some _ =>
      match sanitize_op opname mutate_fields nameop with
      | .error e => .error e
      | .ok commit_preorder =>
        match namedb_preorder_insert st commit_preorder with
        | none => .error .procAbort
        | some st2 => .ok (st2, .opdata commit_preorder)

/-- The nameop argument of `commit_state_create`, together with the data the
`@state_create` decorator (from `blockstack.lib.nameset.__init__`, not among
the provided sources) stashes on it.  Modelled from the spec: the decorator
records the state-create tag, the consumed preorder (absent for
`NAME_IMPORT`), the destination table and the history id key; they are carried
as structure fields because `Val` is flat. -/
structure CreateOp where
  data : Dict
  state_create_tag : Bool        -- `__state_create__`
  preorder : Option Dict         -- `__preorder__`
  table : String                 -- `__table__`
  history_id_key : String        -- `__history_id_key__`
deriving DecidableEq, Repr

/-- `BlockstackDB.commit_state_create` (namedb.py 1567-1653).  Unlike
`commit_state_preorder`, its collided branch logs with the correctly bound
`current_block_number` and returns the empty dict without writing. -/
def commit_state_create (opname : Val → Option String)
    (mutate_fields : String → Option (List String)) (disposition : String)
    (st : CommitStore) (nameop : CreateOp) (_current_block_number : Nat) :
    Except PyErr (CommitStore × CommitResult) :=
  if disposition ≠ DISPOSITION_RW then .error .procAbort
  else if !nameop.state_create_tag then .error .procAbort
  else
    match nameop.data.get "opcode" with
    | none => .error .procAbort       -- `assert opcode is not None`
    | some opcodeV =>
      match sanitize_op opname mutate_fields nameop.data with
      | .error e => .error e
      | .ok initial_state =>
        match nameop.data.get nameop.history_id_key with
        | none => .error .keyError    -- `history_id = nameop[history_id_key]`
        | some _history_id =>
          if nameop_is_collided nameop.data then
            -- `log_reject( current_block_number, nameop['vtxindex'], ... )`
            match nameop.data.get "vtxindex" with
            | none => .error .keyError
            | some _ => .ok (st, .emptyDict)
          else
            match nameop.data.get "vtxindex" with
            | none => .error .keyError   -- `log_accept`, `initial_state['vtxindex']`
            | some _ =>
              match nameop.preorder with
              | some preorder =>
                if !preorder.hasKey "preorder_hash" then .error .procAbort
                else
                  match namedb_state_create st initial_state preorder nameop.table with
                  | none => .error .procAbort
                  | some (st2, canonical) => .ok (st2, .opdata canonical)
              | none =>
                match opcodeV with
                | Val.vstr oc =>
                  if oc ∉ OPCODE_NAME_STATE_IMPORTS then .error .procAbort
                  else
                    match namedb_state_create_as_import st initial_state nameop.table with
                    | none => .error .procAbort
                    | some (st2, canonical) => .ok (st2, .opdata canonical)
                | _ => .error .procAbort

/-! ## The single-writer borrow protocol (C8)

`BlockstackDB.borrow_readwrite_instance` (namedb.py 175-214) and
`BlockstackDB.release_readwrite_instance` (namedb.py 217-251) guard the
module-level slot `blockstack_db` / `blockstack_db_lastblock`
(namedb.py 47-50) under `blockstack_db_lock`.  Because every access happens
with the lock held, the protocol is the sequential state machine below;
`os.abort()` on an assertion failure is the `procAbort` error.  Whether
`db.db_setup()` succeeds is an input of the borrow event. -/

/-- A read-write database handle, identified by the object identity of the
`BlockstackDB` instance constructed inside `borrow_readwrite_instance`. -/
structure DBHandle where
  id : Nat
deriving DecidableEq, Repr

/-- The module-level writer slot: `blockstack_db` and
`blockstack_db_lastblock` (namedb.py 47-50). -/
structure WriterSlot where
  blockstack_db : Option DBHandle
  blockstack_db_lastblock : Option Nat
deriving DecidableEq, Repr

/-- The initial module state: both globals are `None`. -/
def WriterSlot.init : WriterSlot := ⟨none, none⟩

/-- Number of read-write handles the slot currently tracks. -/
def WriterSlot.occupancy (s : WriterSlot) : Nat :=
  if s.blockstack_db.isSome then 1 else 0

/-- `BlockstackDB.borrow_readwrite_instance` (namedb.py 175-214): aborts when
the slot is occupied; otherwise constructs the instance `inst`, and either
fills the slot and returns the handle, or (when `db_setup` fails) returns
`None` leaving the slot empty. -/
def borrow_readwrite_instance (s : WriterSlot) (inst : DBHandle) (block_number : Nat)
    (setup_ok : Bool) : Except PyErr (WriterSlot × Option DBHandle) :=
  match s.blockstack_db with
  | some _ => .error .procAbort    -- `assert blockstack_db is None, "Borrowing violation"`
  | none =>
    if setup_ok then
      .ok ({ blockstack_db := some inst, blockstack_db_lastblock := some block_number },
        some inst)
    else
      .ok (s, none)

/-- `BlockstackDB.release_readwrite_instance` (namedb.py 217-251): aborts
unless the slot holds exactly the instance and block number being returned;
otherwise resets both globals to `None`. -/
def release_readwrite_instance (s : WriterSlot) (db_inst : DBHandle)
    (block_number : Nat) : Except PyErr WriterSlot :=
  match s.blockstack_db with
  | none => .error .procAbort       -- `assert blockstack_db is not None`
  | some cur =>
    if cur ≠ db_inst then .error .procAbort
    else if s.blockstack_db_lastblock ≠ some block_number then .error .procAbort
    else .ok WriterSlot.init

/-- An external interaction with the borrow protocol. -/
inductive BorrowEvent where
  | borrow (inst : DBHandle) (block_number : Nat) (setup_ok : Bool)
  | release (inst : DBHandle) (block_number : Nat)
deriving DecidableEq, Repr

/-- One protocol step over `(slot, number of outstanding handles)`: a borrow
that returns a handle raises the count, a successful release lowers it. -/
def borrow_step (s : WriterSlot × Nat) (ev : BorrowEvent) :
    Except PyErr (WriterSlot × Nat) :=
  match ev with
  | .borrow inst block_number setup_ok =>
    match borrow_readwrite_instance s.1 inst block_number setup_ok with
    | .error e => .error e
    | .ok (s2, h) => .ok (s2, s.2 + (if h.isSome then 1 else 0))
  | .release inst block_number =>
    match release_readwrite_instance s.1 inst block_number with
    | .error e => .error e
    | .ok s2 => .ok (s2, s.2 - 1)

/-- Run a sequence of borrow/release events, stopping at the first abort. -/
def borrow_run (s : WriterSlot × Nat) : List BorrowEvent → Except PyErr (WriterSlot × Nat)
  | [] => .ok s
  | ev :: evs =>
    match borrow_step s ev with
    | .error e => .error e
    | .ok s2 => borrow_run s2 evs

/-! # Theorems for the claims -/

/-- C10: for every namespace preorder hash (and any store contents, opcode
table and current block), `is_namespace_preordered` raises `TypeError` and
never returns a boolean: it invokes `get_namespace_preorder` with three
positional arguments (`self.db`, `namespace_id_hash`, `self.lastblock`) while
that method accepts exactly one argument besides `self`. -/
theorem C10_is_namespace_preordered_raises (opname : Val → Option String)
    (lookup : String → Nat → Option Dict) (lastblock : Nat)
    (namespace_id_hash : String) :
    is_namespace_preordered opname lookup lastblock namespace_id_hash =
      .error .typeError := rfl

/-- C5: for every name `N` and block height `H`, over the same underlying
store state, `is_name_expired(N, H)` returns True exactly when
`get_name(N, lastblock=H, include_expired=False)` returns None. -/
theorem C5_is_name_expired_iff_get_name_none (cfg : EpochConfig) (st : Store)
    (name : String) (H : Nat) :
    is_name_expired cfg st name H = true ↔
      BlockstackDB_get_name cfg st H name false true = none := by
  unfold is_name_expired BlockstackDB_get_name
  cases namedb_get_name cfg st name H false true <;> simp

/-- C9: the `autofill("opcode")` wrapper shared by the decorated readers
guarantees: on an underlying store record without an `opcode` column, every
non-None record returned carries an `opcode` key whose value is
`op_get_opcode_name(record['op'])` provided the record has `'op'`; a record
lacking both `'op'` and `'opcode'` makes the reader raise (AssertionError)
instead of returning a record without `'opcode'`; `None` passes through. -/
theorem C9_autofill_opcode (opname : Val → Option String) (r : Dict)
    (hno : r.hasKey "opcode" = false) :
    (∀ v, r.get "op" = some v →
      autofill_opcode opname (some r) =
        .ok (some (r.set "opcode" (match opname v with
          | some s => Val.vstr s
          | none => Val.vnone))) ∧
      (r.set "opcode" (match opname v with
          | some s => Val.vstr s
          | none => Val.vnone)).get "opcode" =
        some (match opname v with
          | some s => Val.vstr s
          | none => Val.vnone)) ∧
    (r.get "op" = none → autofill_opcode opname (some r) = .error .assertionError) ∧
    autofill_opcode opname none = .ok none := by
  refine ⟨?_, ?_, rfl⟩
  · intro v hv
    constructor
    · simp only [autofill_opcode, hno, Bool.false_eq_true, if_neg,
        not_false_eq_true, hv]
    · exact alistGet_set_self "opcode" _ r
  · intro hnop
    simp only [autofill_opcode, hno, Bool.false_eq_true, if_neg,
      not_false_eq_true, hnop]

/-- Witness for C9 at a concrete record. -/
theorem C9_autofill_opcode_witness :
    (Dict.hasKey [("op", Val.vstr "?")] "opcode" = false) ∧
    autofill_opcode (fun _ => some "NAME_PREORDER") (some [("op", Val.vstr "?")]) =
      .ok (some [("op", Val.vstr "?"), ("opcode", Val.vstr "NAME_PREORDER")]) := by
  refine ⟨rfl, ?_⟩
  have h := ((C9_autofill_opcode (fun _ => some "NAME_PREORDER")
    [("op", Val.vstr "?")] rfl).1 (Val.vstr "?") rfl).1
  exact h.trans (by rfl)

/-- C4: for a registered name record and a namespace record tagged
`NAMESPACE_READY`, `get_name_deadlines` returns
`expire_block = max(namespace.ready_block, name.last_renewed) +
namespace.lifetime * namespace_lifetime_multiplier(block_number)` and
`renewal_deadline = expire_block +
namespace_lifetime_grace_period(block_number)`; it returns None whenever the
namespace op tag is not `NAMESPACE_READY`; and for an existing, unexpired name
whose namespace is ready, `is_name_in_grace_period` returns True exactly when
`expire_block <= block_number < renewal_deadline`. -/
theorem C4_deadlines_and_grace (cfg : EpochConfig) (st : Store) (name : String)
    (H : Nat) (nrec : NameRec) (nsrec : NamespaceRec)
    (h1 : namedb_get_name cfg st name H false true = some nrec)
    (h2 : namedb_get_namespace cfg st (get_namespace_from_name name) H false = some nsrec)
    (h3 : nsrec.op = NAMESPACE_READY) :
    get_name_deadlines cfg nrec nsrec H =
      some ⟨max nsrec.ready_block nrec.last_renewed +
              nsrec.lifetime * cfg.lifetimeMultiplier H nsrec.namespace_id,
            max nsrec.ready_block nrec.last_renewed +
              nsrec.lifetime * cfg.lifetimeMultiplier H nsrec.namespace_id +
              cfg.lifetimeGracePeriod H nsrec.namespace_id⟩ ∧
    (∀ (nrec2 : NameRec) (nsrec2 : NamespaceRec), nsrec2.op ≠ NAMESPACE_READY →
      get_name_deadlines cfg nrec2 nsrec2 H = none) ∧
    is_name_in_grace_period cfg st name H =
      decide (max nsrec.ready_block nrec.last_renewed +
            nsrec.lifetime * cfg.lifetimeMultiplier H nsrec.namespace_id ≤ H ∧
        H < max nsrec.ready_block nrec.last_renewed +
            nsrec.lifetime * cfg.lifetimeMultiplier H nsrec.namespace_id +
            cfg.lifetimeGracePeriod H nsrec.namespace_id) := by
  have hready : get_name_deadlines cfg nrec nsrec H =
      some ⟨max nsrec.ready_block nrec.last_renewed +
              nsrec.lifetime * cfg.lifetimeMultiplier H nsrec.namespace_id,
            max nsrec.ready_block nrec.last_renewed +
              nsrec.lifetime * cfg.lifetimeMultiplier H nsrec.namespace_id +
              cfg.lifetimeGracePeriod H nsrec.namespace_id⟩ := by
    unfold get_name_deadlines
    rw [if_neg (by simp [h3])]
  refine ⟨hready, ?_, ?_⟩
  · intro nrec2 nsrec2 hop
    unfold get_name_deadlines
    rw [if_pos hop]
  · unfold is_name_in_grace_period
    rw [h1, h2]
    simp [hready, ge_iff_le]

/-- Witness for C4 at a concrete store: namespace `test` ready at 695 with
lifetime 10 and multiplier 1, name `foo.test` last renewed at 697, queried at
height 700 (deadlines 707 and 712, not yet in grace). -/
theorem C4_deadlines_and_grace_witness :
    (namedb_get_name ⟨fun _ _ => 1, fun _ _ => 5, fun _ => none, 100⟩
        ⟨[⟨"foo.test", ":", "s", "a", 697, 697, false⟩],
         [⟨"test", NAMESPACE_READY, 694, 695, 10⟩], []⟩ "foo.test" 700 false true =
      some ⟨"foo.test", ":", "s", "a", 697, 697, false⟩) ∧
    get_name_deadlines ⟨fun _ _ => 1, fun _ _ => 5, fun _ => none, 100⟩
        ⟨"foo.test", ":", "s", "a", 697, 697, false⟩
        ⟨"test", NAMESPACE_READY, 694, 695, 10⟩ 700 = some ⟨707, 712⟩ ∧
    is_name_in_grace_period ⟨fun _ _ => 1, fun _ _ => 5, fun _ => none, 100⟩
        ⟨[⟨"foo.test", ":", "s", "a", 697, 697, false⟩],
         [⟨"test", NAMESPACE_READY, 694, 695, 10⟩], []⟩ "foo.test" 700 = false := by
  have h := C4_deadlines_and_grace ⟨fun _ _ => 1, fun _ _ => 5, fun _ => none, 100⟩
    ⟨[⟨"foo.test", ":", "s", "a", 697, 697, false⟩],
     [⟨"test", NAMESPACE_READY, 694, 695, 10⟩], []⟩ "foo.test" 700
    ⟨"foo.test", ":", "s", "a", 697, 697, false⟩
    ⟨"test", NAMESPACE_READY, 694, 695, 10⟩ (by rfl) (by rfl) rfl
  refine ⟨by rfl, h.1.trans (by rfl), (h.2.2).trans (by rfl)⟩

/-- One successful protocol step keeps the outstanding-handle count equal to
the slot occupancy. -/
theorem borrow_step_occupancy (s0 : WriterSlot) (n0 : Nat) (ev : BorrowEvent)
    (s2 : WriterSlot) (n2 : Nat) (hinv : n0 = s0.occupancy)
    (hstep : borrow_step (s0, n0) ev = .ok (s2, n2)) : n2 = s2.occupancy := by
  cases ev with
  | borrow inst block ok =>
    cases hdb : s0.blockstack_db with
    | some h =>
      have hcomp : borrow_step (s0, n0) (.borrow inst block ok) = .error .procAbort := by
        simp [borrow_step, borrow_readwrite_instance, hdb]
      rw [hcomp] at hstep
      exact absurd hstep (by simp)
    | none =>
      have h0 : n0 = 0 := by rw [hinv]; simp [WriterSlot.occupancy, hdb]
      cases ok with
      | true =>
        have hcomp : borrow_step (s0, n0) (.borrow inst block true) =
            .ok (⟨some inst, some block⟩, n0 + 1) := by
          simp [borrow_step, borrow_readwrite_instance, hdb]
        rw [hcomp] at hstep
        simp only [Except.ok.injEq, Prod.mk.injEq] at hstep
        rw [← hstep.2, ← hstep.1, h0]
        rfl
      | false =>
        have hcomp : borrow_step (s0, n0) (.borrow inst block false) = .ok (s0, n0) := by
          simp [borrow_step, borrow_readwrite_instance, hdb]
        rw [hcomp] at hstep
        simp only [Except.ok.injEq, Prod.mk.injEq] at hstep
        rw [← hstep.2, ← hstep.1]
        exact hinv
  | release inst block =>
    cases hdb : s0.blockstack_db with
    | none =>
      have hcomp : borrow_step (s0, n0) (.release inst block) = .error .procAbort := by
        simp [borrow_step, release_readwrite_instance, hdb]
      rw [hcomp] at hstep
      exact absurd hstep (by simp)
    | some cur =>
      by_cases hcur : cur = inst
      · by_cases hblk : s0.blockstack_db_lastblock = some block
        · have hcomp : borrow_step (s0, n0) (.release inst block) =
              .ok (WriterSlot.init, n0 - 1) := by
            simp [borrow_step, release_readwrite_instance, hdb, hcur, hblk]
          rw [hcomp] at hstep
          simp only [Except.ok.injEq, Prod.mk.injEq] at hstep
          rw [← hstep.2, ← hstep.1]
          have h1 : n0 = 1 := by rw [hinv]; simp [WriterSlot.occupancy, hdb]
          rw [h1]
          rfl
        · have hcomp : borrow_step (s0, n0) (.release inst block) = .error .procAbort := by
            simp [borrow_step, release_readwrite_instance, hdb, hcur, hblk]
          rw [hcomp] at hstep
          exact absurd hstep (by simp)
      · have hcomp : borrow_step (s0, n0) (.release inst block) = .error .procAbort := by
          simp [borrow_step, release_readwrite_instance, hdb, hcur]
        rw [hcomp] at hstep
        exact absurd hstep (by simp)

/-- The number of outstanding handles tracks the slot occupancy along any
successful run of the borrow protocol. -/
theorem borrow_run_occupancy :
    ∀ (evs : List BorrowEvent) (s0 : WriterSlot) (n0 : Nat) (s : WriterSlot) (n : Nat),
      n0 = s0.occupancy → borrow_run (s0, n0) evs = .ok (s, n) → n = s.occupancy
  | [], s0, n0, s, n => by
    intro hinv hrun
    simp only [borrow_run, Except.ok.injEq, Prod.mk.injEq] at hrun
    rw [← hrun.2, ← hrun.1]
    exact hinv
  | ev :: evs, s0, n0, s, n => by
    intro hinv hrun
    simp only [borrow_run] at hrun
    cases hstep : borrow_step (s0, n0) ev with
    | error e => rw [hstep] at hrun; exact absurd hrun (by simp)
    | ok s2 =>
      rw [hstep] at hrun
      exact borrow_run_occupancy evs s2.1 s2.2 s n
        (borrow_step_occupancy s0 n0 ev s2.1 s2.2 hinv hstep) hrun

/-- C8: starting from the empty writer slot, every sequence of borrow and
release steps keeps at most one read-write handle outstanding; a borrow that
completes normally with a handle required the slot to have been empty and
fills it with that instance and block; a borrow attempted while the slot is
occupied aborts instead of returning a second handle; a release empties the
slot only when given the borrowed instance and block number, and aborts
otherwise. -/
theorem C8_single_writer (evs : List BorrowEvent) (s : WriterSlot) (n : Nat)
    (hrun : borrow_run (WriterSlot.init, 0) evs = .ok (s, n)) :
    (n = s.occupancy ∧ n ≤ 1) ∧
    (∀ (s2 : WriterSlot) (inst : DBHandle) (block : Nat) (ok : Bool)
        (s3 : WriterSlot) (h : DBHandle),
      borrow_readwrite_instance s2 inst block ok = .ok (s3, some h) →
        s2.blockstack_db = none ∧ s3 = ⟨some inst, some block⟩ ∧ h = inst) ∧
    (∀ (s2 : WriterSlot) (inst : DBHandle) (block : Nat) (ok : Bool),
      s2.blockstack_db ≠ none →
        borrow_readwrite_instance s2 inst block ok = .error .procAbort) ∧
    (∀ (s2 : WriterSlot) (inst : DBHandle) (block : Nat) (s3 : WriterSlot),
      release_readwrite_instance s2 inst block = .ok s3 →
        s2.blockstack_db = some inst ∧ s2.blockstack_db_lastblock = some block ∧
        s3 = WriterSlot.init) ∧
    (∀ (s2 : WriterSlot) (inst : DBHandle) (block : Nat),
      (s2.blockstack_db ≠ some inst ∨ s2.blockstack_db_lastblock ≠ some block) →
        release_readwrite_instance s2 inst block = .error .procAbort) := by
  have hocc := borrow_run_occupancy evs WriterSlot.init 0 s n (by rfl) hrun
  refine ⟨⟨hocc, ?_⟩, ?_, ?_, ?_, ?_⟩
  · rw [hocc]; unfold WriterSlot.occupancy; split <;> simp
  · intro s2 inst block ok s3 h hb
    cases hdb : s2.blockstack_db with
    | some h2 =>
      have : borrow_readwrite_instance s2 inst block ok = .error .procAbort := by
        simp [borrow_readwrite_instance, hdb]
      rw [this] at hb
      exact absurd hb (by simp)
    | none =>
      cases ok with
      | true =>
        have hcomp : borrow_readwrite_instance s2 inst block true =
            .ok (⟨some inst, some block⟩, some inst) := by
          simp [borrow_readwrite_instance, hdb]
        rw [hcomp] at hb
        simp only [Except.ok.injEq, Prod.mk.injEq, Option.some.injEq] at hb
        exact ⟨rfl, hb.1.symm, hb.2.symm⟩
      | false =>
        have hcomp : borrow_readwrite_instance s2 inst block false = .ok (s2, none) := by
          simp [borrow_readwrite_instance, hdb]
        rw [hcomp] at hb
        simp only [Except.ok.injEq, Prod.mk.injEq] at hb
        exact absurd hb.2 (by simp)
  · intro s2 inst block ok hne
    cases hdb : s2.blockstack_db with
    | some h2 => simp [borrow_readwrite_instance, hdb]
    | none => exact absurd hdb hne
  · intro s2 inst block s3 hr
    cases hdb : s2.blockstack_db with
    | none =>
      have : release_readwrite_instance s2 inst block = .error .procAbort := by
        simp [release_readwrite_instance, hdb]
      rw [this] at hr
      exact absurd hr (by simp)
    | some cur =>
      by_cases hcur : cur = inst
      · by_cases hblk : s2.blockstack_db_lastblock = some block
        · have hcomp : release_readwrite_instance s2 inst block = .ok WriterSlot.init := by
            simp [release_readwrite_instance, hdb, hcur, hblk]
          rw [hcomp] at hr
          simp only [Except.ok.injEq] at hr
          exact ⟨by rw [hcur], hblk, hr.symm⟩
        · have hcomp : release_readwrite_instance s2 inst block = .error .procAbort := by
            simp [release_readwrite_instance, hdb, hcur, hblk]
          rw [hcomp] at hr
          exact absurd hr (by simp)
      · have hcomp : release_readwrite_instance s2 inst block = .error .procAbort := by
          simp [release_readwrite_instance, hdb, hcur]
        rw [hcomp] at hr
        exact absurd hr (by simp)
  · intro s2 inst block hmis
    cases hdb : s2.blockstack_db with
    | none => simp [release_readwrite_instance, hdb]
    | some cur =>
      by_cases hcur : cur = inst
      · have hblk : s2.blockstack_db_lastblock ≠ some block := by
          rcases hmis with hmis | hmis
          · exact absurd (by rw [hdb, hcur]) hmis
          · exact hmis
        simp [release_readwrite_instance, hdb, hcur, hblk]
      · simp [release_readwrite_instance, hdb, hcur]

/-- Witness for C8: a borrow of instance 7 at block 100 followed by its
matching release runs without abort and returns to the empty slot with zero
outstanding handles. -/
theorem C8_single_writer_witness :
    borrow_run (WriterSlot.init, 0)
        [BorrowEvent.borrow ⟨7⟩ 100 true, BorrowEvent.release ⟨7⟩ 100] =
      .ok (WriterSlot.init, 0) ∧ (0 = WriterSlot.init.occupancy ∧ 0 ≤ 1) := by
  refine ⟨rfl, ?_⟩
  exact (C8_single_writer
    [BorrowEvent.borrow ⟨7⟩ 100 true, BorrowEvent.release ⟨7⟩ 100]
    WriterSlot.init 0 (by rfl)).1

/-- The check-method call counter of the `op_check` loop grows by at most the
remaining fuel. -/
theorem op_check_loop_calls (opname : Val → Option String)
    (methods : String → Option (Dict → Bool × Dict)) :
    ∀ (fuel : Nat) (nameop : Dict) (calls : Nat),
      (op_check_loop opname methods fuel nameop calls).2 ≤ calls + fuel
  | 0, nameop, calls => by simp [op_check_loop]
  | fuel + 1, nameop, calls => by
    simp only [op_check_loop]
    cases h0 : op_check_resolve_opcode opname nameop with
    | none => simp [h0]
    | some opcode =>
      simp only [h0]
      cases h1 : methods opcode with
      | none => simp [h1]
      | some check_method =>
        simp only [h1]
        cases hrc : (check_method nameop).1 with
        | false => simp [hrc]
        | true =>
          simp only [hrc, Bool.not_true, Bool.false_eq_true, if_neg, not_false_eq_true]
          cases hop : (check_method nameop).2.get "opcode" with
          | none => simp [hop]
          | some nv =>
            simp only [hop]
            by_cases hv : nv = Val.vstr opcode
            · rw [if_pos hv]; simp
            · rw [if_neg hv]
              have hrec := op_check_loop_calls opname methods fuel
                (nameop.set "opcode" nv) (calls + 1)
              omega

/-- With one unit of fuel left (`count` about to reach 3), every branch of the
`op_check` loop ends in the fatal closing assert. -/
theorem op_check_loop_one_fatal (opname : Val → Option String)
    (methods : String → Option (Dict → Bool × Dict)) (nameop : Dict) (calls : Nat) :
    (op_check_loop opname methods 1 nameop calls).1 = OpCheckOutcome.fatal := by
  simp only [op_check_loop]
  cases h0 : op_check_resolve_opcode opname nameop with
  | none => simp [h0]
  | some opcode =>
    simp only [h0]
    cases h1 : methods opcode with
    | none => simp [h1]
    | some check_method =>
      simp only [h1]
      cases hrc : (check_method nameop).1 with
      | false => simp [hrc]
      | true =>
        simp only [hrc, Bool.not_true, Bool.false_eq_true, if_neg, not_false_eq_true]
        cases hop : (check_method nameop).2.get "opcode" with
        | none => simp [hop]
        | some nv =>
          simp only [hop]
          by_cases hv : nv = Val.vstr opcode
          · rw [if_pos hv]; simp
          · rw [if_neg hv]

/-- C3: the per-opcode check method is invoked at most 3 times per `op_check`
run; a run whose first check type-casts the opcode exactly once (the re-run
then accepts or rejects without casting again) returns normally after exactly
2 check invocations; a run whose first two checks both type-cast ends in the
fatal `sys.exit(1)` of the closing `assert count < 3`, which is therefore
unreachable for runs with at most one rewrite. -/
theorem C3_op_check (opname : Val → Option String)
    (methods : String → Option (Dict → Bool × Dict)) (nameop : Dict) :
    (op_check opname methods nameop).2 ≤ 3 ∧
    (∀ (op1 : String) (c1 : Dict → Bool × Dict) (clone1 : Dict) (op2 : String)
        (c2 : Dict → Bool × Dict) (rc2 : Bool) (clone2 : Dict),
      op_check_resolve_opcode opname nameop = some op1 →
      methods op1 = some c1 →
      c1 nameop = (true, clone1) →
      clone1.get "opcode" = some (Val.vstr op2) →
      op2 ≠ op1 →
      methods op2 = some c2 →
      c2 (nameop.set "opcode" (Val.vstr op2)) = (rc2, clone2) →
      (rc2 = false ∨ clone2.get "opcode" = none ∨
        clone2.get "opcode" = some (Val.vstr op2)) →
      (op_check opname methods nameop).1 ≠ OpCheckOutcome.fatal ∧
      (op_check opname methods nameop).2 = 2) ∧
    (∀ (op1 : String) (c1 : Dict → Bool × Dict) (clone1 : Dict) (op2 : String)
        (c2 : Dict → Bool × Dict) (clone2 : Dict) (v2 : Val),
      op_check_resolve_opcode opname nameop = some op1 →
      methods op1 = some c1 →
      c1 nameop = (true, clone1) →
      clone1.get "opcode" = some (Val.vstr op2) →
      op2 ≠ op1 →
      methods op2 = some c2 →
      c2 (nameop.set "opcode" (Val.vstr op2)) = (true, clone2) →
      clone2.get "opcode" = some v2 →
      v2 ≠ Val.vstr op2 →
      (op_check opname methods nameop).1 = OpCheckOutcome.fatal) := by
  refine ⟨op_check_loop_calls opname methods 3 nameop 0, ?_, ?_⟩
  · intro op1 c1 clone1 op2 c2 rc2 clone2 h0 h1 h2 h3 h4 h5 h6 h7
    have hget : (nameop.set "opcode" (Val.vstr op2)).get "opcode" =
        some (Val.vstr op2) := alistGet_set_self "opcode" _ nameop
    have hres2 : op_check_resolve_opcode opname (nameop.set "opcode" (Val.vstr op2)) =
        some op2 := by
      unfold op_check_resolve_opcode
      rw [hget]
    have hne : ¬ (Val.vstr op2 = Val.vstr op1) := by simp [h4]
    have hstep1 : op_check opname methods nameop =
        op_check_loop opname methods 2 (nameop.set "opcode" (Val.vstr op2)) 1 := by
      simp only [op_check, op_check_loop, h0, h1, h2, Bool.not_true,
        Bool.false_eq_true, if_neg, not_false_eq_true, h3]
      rw [if_neg hne]
    rw [hstep1]
    simp only [op_check_loop, hres2, h5, h6]
    cases rc2 with
    | false => simp
    | true =>
      simp only [Bool.not_true, Bool.false_eq_true, if_neg, not_false_eq_true]
      rcases h7 with h7 | h7 | h7
      · exact absurd h7 (by simp)
      · rw [h7]; simp
      · rw [h7]; simp
  · intro op1 c1 clone1 op2 c2 clone2 v2 h0 h1 h2 h3 h4 h5 h6 h8 h9
    have hget : (nameop.set "opcode" (Val.vstr op2)).get "opcode" =
        some (Val.vstr op2) := alistGet_set_self "opcode" _ nameop
    have hres2 : op_check_resolve_opcode opname (nameop.set "opcode" (Val.vstr op2)) =
        some op2 := by
      unfold op_check_resolve_opcode
      rw [hget]
    have hne : ¬ (Val.vstr op2 = Val.vstr op1) := by simp [h4]
    have hstep1 : op_check opname methods nameop =
        op_check_loop opname methods 2 (nameop.set "opcode" (Val.vstr op2)) 1 := by
      simp only [op_check, op_check_loop, h0, h1, h2, Bool.not_true,
        Bool.false_eq_true, if_neg, not_false_eq_true, h3]
      rw [if_neg hne]
    rw [hstep1]
    have hstep2 : op_check_loop opname methods 2 (nameop.set "opcode" (Val.vstr op2)) 1 =
        op_check_loop opname methods 1
          ((nameop.set "opcode" (Val.vstr op2)).set "opcode" v2) 2 := by
      simp only [op_check_loop, hres2, h5, h6, Bool.not_true, Bool.false_eq_true,
        if_neg, not_false_eq_true, h8]
      rw [if_neg h9]
    rw [hstep2]
    exact op_check_loop_one_fatal opname methods _ 2

/-- Witness inputs for C3: a register check that type-casts to a renewal
exactly once, after which the renewal check accepts unchanged. -/
def C3_check_register : Dict → Bool × Dict :=
  fun d => (true, d.set "opcode" (Val.vstr "NAME_RENEWAL"))

/-- Witness inputs for C3: the renewal check, accepting without a cast. -/
def C3_check_renewal : Dict → Bool × Dict :=
  fun d => (true, d)

/-- Witness inputs for C3: the two-entry check-method table. -/
def C3_methods : String → Option (Dict → Bool × Dict) :=
  fun s =>
    if s = "NAME_REGISTRATION" then some C3_check_register
    else if s = "NAME_RENEWAL" then some C3_check_renewal
    else none

/-- Witness inputs for C3: a registration nameop. -/
def C3_nameop : Dict := [("op", Val.vstr ":"), ("opcode", Val.vstr "NAME_REGISTRATION")]

/-- Witness for C3: on the concrete one-cast run, `op_check` returns normally
after exactly two check invocations. -/
theorem C3_op_check_witness :
    (op_check (fun _ => none) C3_methods C3_nameop).1 ≠ OpCheckOutcome.fatal ∧
    (op_check (fun _ => none) C3_methods C3_nameop).2 = 2 := by
  exact (C3_op_check (fun _ => none) C3_methods C3_nameop).2.1
    "NAME_REGISTRATION" C3_check_register
    [("op", Val.vstr ":"), ("opcode", Val.vstr "NAME_RENEWAL")]
    "NAME_RENEWAL" C3_check_renewal true
    [("op", Val.vstr ":"), ("opcode", Val.vstr "NAME_RENEWAL")]
    (by rfl) (by rfl) (by rfl) (by rfl) (by decide) (by rfl) (by rfl)
    (Or.inr (Or.inr (by rfl)))

/-- The claim's description of the marking pass, one op at a time: a
previously checked op is replaced by its collided version exactly when its
opcode is in `affected_opcodes` and its value at `history_id_key` equals
`history_id`; any other op is returned unchanged.  Stated for comparison with
the loop body `collision_mark_one` of the source. -/
def collision_marked (opname : Val → Option String) (history_id_key : String)
    (history_id : Val) (affected_opcodes : List String) (prev_op : Dict) : Dict :=
  match prev_op.get "op" with
  | none => prev_op
  | some opv =>
    match opname opv with
    | none => prev_op
    | some prev_opcode =>
      if prev_opcode ∈ affected_opcodes then
        match prev_op.get history_id_key with
        | some v =>
          if v = history_id then
            nameop_set_collided prev_op history_id_key history_id
          else prev_op
        | none => prev_op
      else prev_op

/-- On ops that carry an `op` field, the source loop body agrees with the
claim's marking description. -/
theorem collision_mark_one_eq (opname : Val → Option String) (history_id_key : String)
    (history_id : Val) (affected_opcodes : List String) (prev_op : Dict)
    (hop : (prev_op.get "op").isSome = true) :
    collision_mark_one opname history_id_key history_id affected_opcodes prev_op =
      .ok (collision_marked opname history_id_key history_id affected_opcodes prev_op) := by
  unfold collision_mark_one collision_marked
  cases hget : prev_op.get "op" with
  | none => rw [hget] at hop; simp at hop
  | some opv =>
    simp only [hget]
    cases opname opv with
    | none => rfl
    | some pc =>
      simp only []
      by_cases hmem : pc ∈ affected_opcodes
      · rw [if_neg (by simp [hmem]), if_pos hmem]
        cases prev_op.get history_id_key with
        | none => rfl
        | some v =>
          simp only []
          by_cases hv : v = history_id
          · rw [if_pos hv, if_pos hv]
          · rw [if_neg hv, if_neg hv]
      · rw [if_pos hmem, if_neg hmem]

/-- `mapM` over the marking loop succeeds and equals the claim's `map` when
every checked op carries an `op` field. -/
theorem collision_mapM_ok (opname : Val → Option String) (history_id_key : String)
    (history_id : Val) (affected_opcodes : List String) :
    ∀ (checked : List Dict), (∀ op ∈ checked, (op.get "op").isSome = true) →
      checked.mapM (collision_mark_one opname history_id_key history_id affected_opcodes) =
        .ok (checked.map (collision_marked opname history_id_key history_id affected_opcodes))
  | [], _ => rfl
  | op :: t, h => by
    have hop := h op (by simp)
    have ht : ∀ o ∈ t, (o.get "op").isSome = true := fun o ho => h o (by simp [ho])
    rw [List.mapM_cons,
      collision_mark_one_eq opname history_id_key history_id affected_opcodes op hop,
      collision_mapM_ok opname history_id_key history_id affected_opcodes t ht]
    rfl

/-- `nameop_set_collided` always leaves the op flagged as collided (the two
subsequent bookkeeping keys are distinct from `__collided__`). -/
theorem nameop_is_collided_set (op : Dict) (k : String) (h : Val) :
    nameop_is_collided (nameop_set_collided op k h) = true := by
  unfold nameop_is_collided nameop_set_collided Dict.get Dict.set
  rw [alistGet_set_other _ _ _ (by decide), alistGet_set_other _ _ _ (by decide),
    alistGet_set_self]
  rfl

/-- Evaluating `collision_seen` at a block that was just written: only the
written inner table matters. -/
theorem collision_seen_csSet (cs : CollisionState) (b : Nat) (k : String) (hid : Val)
    (t2 : CollisionTable) :
    collision_seen (csSet cs b t2) b k hid =
      (match ctGet t2 k with
       | none => false
       | some vs => decide (hid ∈ vs)) := by
  unfold collision_seen csGet csSet
  rw [alistGet_set_self]

/-- Writing a key of the inner collision table and reading it back. -/
theorem ctGet_ctSet_self (t : CollisionTable) (k : String) (vs : List Val) :
    ctGet (ctSet t k vs) k = some vs :=
  alistGet_set_self k vs t

/-- A repeat `(history_id_key, history_id)` pair at `block_id` makes
`check_collision_state` return True with the collision state unchanged and the
checked ops passed through the marking map. -/
theorem check_collision_state_seen_true (opname : Val → Option String)
    (cs : CollisionState) (k : String) (hid : Val) (b : Nat) (checked : List Dict)
    (affected : List String)
    (hseen : collision_seen cs b k hid = true)
    (hwf : ∀ op ∈ checked, (op.get "op").isSome = true) :
    check_collision_state opname cs k hid b checked affected =
      .ok (true, cs, checked.map (collision_marked opname k hid affected)) := by
  unfold collision_seen at hseen
  unfold check_collision_state
  cases hcs : csGet cs b with
  | none => simp only [hcs] at hseen; exact absurd hseen (by simp)
  | some t =>
    simp only [hcs] at hseen ⊢
    cases hct : ctGet t k with
    | none => simp only [hct] at hseen; exact absurd hseen (by simp)
    | some vs =>
      simp only [hct] at hseen ⊢
      have hmem : hid ∈ vs := by simpa using hseen
      rw [if_pos hmem]
      rw [collision_mapM_ok opname k hid affected checked hwf]
      simp only [Bool.not_true, Bool.false_eq_true, if_neg, not_false_eq_true]
      rfl

/-- A first-occurrence pair makes `check_collision_state` record the value and
return False with the checked ops untouched; the recording is visible through
`collision_seen` on the new state. -/
theorem check_collision_state_seen_false (opname : Val → Option String)
    (cs : CollisionState) (k : String) (hid : Val) (b : Nat) (checked : List Dict)
    (affected : List String)
    (hseen : collision_seen cs b k hid = false) :
    ∃ cs2, check_collision_state opname cs k hid b checked affected =
        .ok (false, cs2, checked) ∧
      collision_seen cs2 b k hid = true := by
  unfold collision_seen at hseen
  unfold check_collision_state
  cases hcs : csGet cs b with
  | none =>
    refine ⟨csSet cs b [(k, [hid])], ?_, ?_⟩
    · simp only [hcs]
      rfl
    · rw [collision_seen_csSet]
      have : ctGet [(k, [hid])] k = some [hid] := by
        simp [ctGet, alistGet, List.find?]
      rw [this]
      simp
  | some t =>
    simp only [hcs] at hseen ⊢
    cases hct : ctGet t k with
    | none =>
      refine ⟨csSet cs b (ctSet t k [hid]), ?_, ?_⟩
      · simp only [hct]
        rfl
      · rw [collision_seen_csSet, ctGet_ctSet_self]
        simp
    | some vs =>
      simp only [hct] at hseen ⊢
      have hmem : hid ∉ vs := by simpa using hseen
      rw [if_neg hmem]
      refine ⟨csSet cs b (ctSet t k (vs ++ [hid])), ?_, ?_⟩
      · simp
      · rw [collision_seen_csSet, ctGet_ctSet_self]
        simp

/-- C2: when `check_collision` sees a `(history_id_key, history_id)` pair
already recorded for `block_id`, it returns True; every previously checked op
whose opcode is in `affected_opcodes` and whose value at `history_id_key`
equals `history_id` gets `__collided__` set while all other checked ops are
unchanged; the newly checked colliding op is marked `__collided__` as well (by
the `@state_preorder`/`@state_create` decorator, modelled from the spec).  On
a first occurrence the pair is recorded and False is returned with nothing
marked. -/
theorem C2_check_collision (opname : Val → Option String) (collisions : CollisionState)
    (history_id_key : String) (block_id : Nat) (checked_ops : List Dict)
    (affected_opcodes : List String) (nameop : Dict) (history_id : Val)
    (hhid : nameop.get history_id_key = some history_id)
    (hwf : ∀ op ∈ checked_ops, (op.get "op").isSome = true) :
    (collision_seen collisions block_id history_id_key history_id = true →
      engine_check_collision opname collisions history_id_key block_id checked_ops
          affected_opcodes nameop =
        .ok (true, collisions,
          checked_ops.map
            (collision_marked opname history_id_key history_id affected_opcodes),
          nameop_set_collided nameop history_id_key history_id) ∧
      nameop_is_collided (nameop_set_collided nameop history_id_key history_id) = true) ∧
    (collision_seen collisions block_id history_id_key history_id = false →
      ∃ cs2, engine_check_collision opname collisions history_id_key block_id checked_ops
          affected_opcodes nameop = .ok (false, cs2, checked_ops, nameop) ∧
        collision_seen cs2 block_id history_id_key history_id = true) ∧
    (∀ prev_op opv pc,
      prev_op.get "op" = some opv → opname opv = some pc → pc ∈ affected_opcodes →
      prev_op.get history_id_key = some history_id →
      collision_marked opname history_id_key history_id affected_opcodes prev_op =
        nameop_set_collided prev_op history_id_key history_id ∧
      nameop_is_collided
        (collision_marked opname history_id_key history_id affected_opcodes prev_op) =
        true) ∧
    (∀ prev_op, prev_op.get history_id_key ≠ some history_id →
      collision_marked opname history_id_key history_id affected_opcodes prev_op =
        prev_op) ∧
    (∀ prev_op opv pc,
      prev_op.get "op" = some opv → opname opv = some pc → pc ∉ affected_opcodes →
      collision_marked opname history_id_key history_id affected_opcodes prev_op =
        prev_op) := by
  refine ⟨?_, ?_, ?_, ?_, ?_⟩
  · intro hseen
    have hstate := check_collision_state_seen_true opname collisions history_id_key
      history_id block_id checked_ops affected_opcodes hseen hwf
    constructor
    · unfold engine_check_collision check_collision
      rw [hhid]
      simp only [hstate]
      rfl
    · exact nameop_is_collided_set nameop history_id_key history_id
  · intro hseen
    obtain ⟨cs2, hstate, hrec⟩ := check_collision_state_seen_false opname collisions
      history_id_key history_id block_id checked_ops affected_opcodes hseen
    refine ⟨cs2, ?_, hrec⟩
    unfold engine_check_collision check_collision
    rw [hhid]
    simp only [hstate]
    rfl
  · intro prev_op opv pc hop hpc hmem hv
    have hmark : collision_marked opname history_id_key history_id affected_opcodes
        prev_op = nameop_set_collided prev_op history_id_key history_id := by
      unfold collision_marked
      rw [hop]
      simp only [hpc]
      rw [if_pos hmem, hv]
      simp
    exact ⟨hmark, by rw [hmark]; exact nameop_is_collided_set prev_op history_id_key history_id⟩
  · intro prev_op hne
    unfold collision_marked
    cases hop : prev_op.get "op" with
    | none => rfl
    | some opv =>
      simp only []
      cases opname opv with
      | none => rfl
      | some pc =>
        simp only []
        by_cases hmem : pc ∈ affected_opcodes
        · rw [if_pos hmem]
          cases hv : prev_op.get history_id_key with
          | none => rfl
          | some v =>
            simp only []
            rw [if_neg (by rintro rfl; exact hne hv)]
        · rw [if_neg hmem]
  · intro prev_op opv pc hop hpc hmem
    unfold collision_marked
    rw [hop]
    simp only [hpc]
    rw [if_neg hmem]

/-- Witness for C2: a second `NAME_PREORDER` carrying an already-recorded
preorder hash in block 5 collides; the incumbent op is marked and the new op
is marked; the first occurrence case records and does not mark. -/
theorem C2_check_collision_witness :
    (Dict.get [("op", Val.vstr "?"), ("preorder_hash", Val.vstr "h1")]
        "preorder_hash" = some (Val.vstr "h1")) ∧
    engine_check_collision (fun _ => some "NAME_PREORDER")
        [(5, [("preorder_hash", [Val.vstr "h1"])])] "preorder_hash" 5
        [[("op", Val.vstr "?"), ("preorder_hash", Val.vstr "h1")]]
        ["NAME_PREORDER"]
        [("op", Val.vstr "?"), ("preorder_hash", Val.vstr "h1")] =
      .ok (true, [(5, [("preorder_hash", [Val.vstr "h1"])])],
        [nameop_set_collided [("op", Val.vstr "?"), ("preorder_hash", Val.vstr "h1")]
          "preorder_hash" (Val.vstr "h1")],
        nameop_set_collided [("op", Val.vstr "?"), ("preorder_hash", Val.vstr "h1")]
          "preorder_hash" (Val.vstr "h1")) := by
  have h := C2_check_collision (fun _ => some "NAME_PREORDER")
    [(5, [("preorder_hash", [Val.vstr "h1"])])] "preorder_hash" 5
    [[("op", Val.vstr "?"), ("preorder_hash", Val.vstr "h1")]]
    ["NAME_PREORDER"]
    [("op", Val.vstr "?"), ("preorder_hash", Val.vstr "h1")] (Val.vstr "h1")
    (by rfl) (by intro op hop; simp at hop; rw [hop]; rfl)
  refine ⟨by rfl, ?_⟩
  have hmain := (h.1 (by rfl)).1
  rw [hmain]
  have hm := h.2.2.1 [("op", Val.vstr "?"), ("preorder_hash", Val.vstr "h1")]
    (Val.vstr "?") "NAME_PREORDER" (by rfl) (by rfl) (by simp) (by rfl)
  rw [List.map_cons, List.map_nil, hm.1]

/-- C1 (code bug): for an operation flagged `__collided__`,
`commit_state_preorder` does not return cleanly: evaluating
`self.log_reject( block_id, nameop['vtxindex'], nameop['op'], nameop )`
raises `NameError` — `block_id` is bound nowhere in the method, whose
parameter is `current_block_number` — before the intended `return []` is
reached; no preorder row is inserted either way (the error precedes any
write).  `commit_state_create`'s collided branch behaves as the claim states:
it returns the empty dict and leaves the store untouched. -/
theorem C1_commit_drops_collided (opname : Val → Option String)
    (mutate_fields : String → Option (List String)) (st : CommitStore)
    (nameop : Dict) (createop : CreateOp) (block : Nat)
    (hcol : nameop_is_collided nameop = true)
    (hcol2 : nameop_is_collided createop.data = true)
    (htag : createop.state_create_tag = true)
    (opcodeV : Val) (hopc : createop.data.get "opcode" = some opcodeV)
    (initial_state : Dict)
    (hsan : sanitize_op opname mutate_fields createop.data = .ok initial_state)
    (hidV : Val) (hhist : createop.data.get createop.history_id_key = some hidV)
    (vtxV : Val) (hvtx : createop.data.get "vtxindex" = some vtxV) :
    commit_state_preorder opname mutate_fields DISPOSITION_RW st nameop block =
      .error .nameError ∧
    commit_state_create opname mutate_fields DISPOSITION_RW st createop block =
      .ok (st, .emptyDict) := by
  constructor
  · unfold commit_state_preorder
    rw [if_neg (by simp), if_pos hcol]
  · unfold commit_state_create
    rw [if_neg (by simp)]
    rw [htag]
    simp only [Bool.not_true, Bool.false_eq_true, if_neg, not_false_eq_true]
    rw [hopc]
    simp only [hsan]
    rw [hhist]
    simp only [hcol2, if_pos]
    rw [hvtx]

/-- Witness for C1: a collided `NAME_PREORDER` nameop makes the embedded
`commit_state_preorder` raise `NameError` with no write, and a collided
`NAME_REGISTRATION` create op makes `commit_state_create` return the empty
dict with the store unchanged. -/
theorem C1_commit_drops_collided_witness :
    commit_state_preorder (fun v => if v = Val.vstr "?" then some "NAME_PREORDER" else
        if v = Val.vstr ":" then some "NAME_REGISTRATION" else none)
      (fun _ => some []) DISPOSITION_RW ⟨[], [], []⟩
      [("op", Val.vstr "?"), ("vtxindex", Val.vint 1),
       ("preorder_hash", Val.vstr "h1"), ("__collided__", Val.vbool true)] 700 =
      .error .nameError ∧
    commit_state_create (fun v => if v = Val.vstr "?" then some "NAME_PREORDER" else
        if v = Val.vstr ":" then some "NAME_REGISTRATION" else none)
      (fun _ => some []) DISPOSITION_RW ⟨[], [], []⟩
      ⟨[("op", Val.vstr ":"), ("vtxindex", Val.vint 2), ("name", Val.vstr "foo.test"),
        ("opcode", Val.vstr "NAME_REGISTRATION"), ("__collided__", Val.vbool true)],
       true, some [("preorder_hash", Val.vstr "h1")], "name_records", "name"⟩ 700 =
      .ok (⟨[], [], []⟩, .emptyDict) :=
  C1_commit_drops_collided
    (fun v => if v = Val.vstr "?" then some "NAME_PREORDER" else
      if v = Val.vstr ":" then some "NAME_REGISTRATION" else none)
    (fun _ => some []) ⟨[], [], []⟩
    [("op", Val.vstr "?"), ("vtxindex", Val.vint 1),
     ("preorder_hash", Val.vstr "h1"), ("__collided__", Val.vbool true)]
    ⟨[("op", Val.vstr ":"), ("vtxindex", Val.vint 2), ("name", Val.vstr "foo.test"),
      ("opcode", Val.vstr "NAME_REGISTRATION"), ("__collided__", Val.vbool true)],
     true, some [("preorder_hash", Val.vstr "h1")], "name_records", "name"⟩ 700
    (by rfl) (by rfl) rfl (Val.vstr "NAME_REGISTRATION") (by rfl)
    [("op", Val.vstr ":"), ("vtxindex", Val.vint 2), ("name", Val.vstr "foo.test")]
    (by rfl) (Val.vstr "foo.test") (by rfl) (Val.vint 2) (by rfl)

/-- C7: `get_name_preorder` returns None whenever the stored preorder's age
reaches the namespace lifetime window
(`preorder.block_number + namespace.lifetime * multiplier(current_block) <=
current_block`); it also returns None when the name is currently registered
and unexpired (with `include_failed=False`) or when the name's namespace does
not exist (is not ready); otherwise it returns the live preorder record looked
up under the hash computed from `(name, sender script, register address)`. -/
theorem C7_get_name_preorder (cfg : EpochConfig)
    (hashName : String → String → String → String) (st : Store) (lastblock : Nat)
    (name sender_script_pubkey register_addr : String) (include_failed : Bool) :
    (∀ (nsa : NamespaceRec × Option String) (p : PreorderRec),
      BlockstackDB_get_namespace cfg st (get_namespace_from_name name) = some nsa →
      namedb_get_name_preorder st (hashName name sender_script_pubkey register_addr)
        lastblock = some p →
      p.block_number + nsa.1.lifetime *
          cfg.lifetimeMultiplier lastblock (get_namespace_from_name name) ≤ lastblock →
      get_name_preorder cfg hashName st lastblock name sender_script_pubkey
        register_addr include_failed = none) ∧
    (∀ r, BlockstackDB_get_name cfg st lastblock name = some r →
      get_name_preorder cfg hashName st lastblock name sender_script_pubkey
        register_addr false = none) ∧
    (BlockstackDB_get_namespace cfg st (get_namespace_from_name name) = none →
      get_name_preorder cfg hashName st lastblock name sender_script_pubkey
        register_addr include_failed = none) ∧
    (∀ (nsa : NamespaceRec × Option String) (p : PreorderRec),
      (BlockstackDB_get_name cfg st lastblock name = none ∨ include_failed = true) →
      BlockstackDB_get_namespace cfg st (get_namespace_from_name name) = some nsa →
      namedb_get_name_preorder st (hashName name sender_script_pubkey register_addr)
        lastblock = some p →
      lastblock < p.block_number + nsa.1.lifetime *
          cfg.lifetimeMultiplier lastblock (get_namespace_from_name name) →
      get_name_preorder cfg hashName st lastblock name sender_script_pubkey
        register_addr include_failed = some (p, cfg.opcodeName p.op)) := by
  refine ⟨?_, ?_, ?_, ?_⟩
  · intro nsa p hns hpre hage
    unfold get_name_preorder
    cases hcond : ((BlockstackDB_get_name cfg st lastblock name).isSome &&
        !include_failed) with
    | true => simp [hcond]
    | false =>
      simp only [hcond, Bool.false_eq_true, if_neg, not_false_eq_true]
      rw [hns]
      simp only [hpre]
      rw [if_pos hage]
  · intro r hreg
    unfold get_name_preorder
    have hcond : ((BlockstackDB_get_name cfg st lastblock name).isSome && !false) = true := by
      rw [hreg]; rfl
    rw [if_pos hcond]
  · intro hns
    unfold get_name_preorder
    cases hcond : ((BlockstackDB_get_name cfg st lastblock name).isSome &&
        !include_failed) with
    | true => simp [hcond]
    | false =>
      simp only [hcond, Bool.false_eq_true, if_neg, not_false_eq_true]
      rw [hns]
  · intro nsa p hname hns hpre hage
    unfold get_name_preorder
    have hcond : ((BlockstackDB_get_name cfg st lastblock name).isSome &&
        !include_failed) = false := by
      rcases hname with hname | hname
      · rw [hname]; rfl
      · rw [hname]; simp
    simp only [hcond, Bool.false_eq_true, if_neg, not_false_eq_true]
    rw [hns]
    simp only [hpre]
    rw [if_neg (by omega)]

/-- Witness for C7: with namespace `test` ready (lifetime 10) and a live
preorder accepted at block 695, at current block 700 the preorder is returned
live; no name record exists. -/
theorem C7_get_name_preorder_witness :
    get_name_preorder ⟨fun _ _ => 1, fun _ _ => 0, fun _ => some "NAME_PREORDER", 100⟩
        (fun _ _ _ => "H") ⟨[], [⟨"test", NAMESPACE_READY, 694, 695, 10⟩],
          [⟨"H", 695, "?"⟩]⟩ 700 "foo.test" "sender-script" "addr" false =
      some (⟨"H", 695, "?"⟩, some "NAME_PREORDER") := by
  have h := (C7_get_name_preorder ⟨fun _ _ => 1, fun _ _ => 0, fun _ => some "NAME_PREORDER", 100⟩
    (fun _ _ _ => "H") ⟨[], [⟨"test", NAMESPACE_READY, 694, 695, 10⟩], [⟨"H", 695, "?"⟩]⟩
    700 "foo.test" "sender-script" "addr" false).2.2.2
    (⟨"test", NAMESPACE_READY, 694, 695, 10⟩, some "NAME_PREORDER") ⟨"H", 695, "?"⟩
    (Or.inl (by rfl)) (by rfl) (by rfl) (by decide)
  exact h

/-- Membership in the dedup-fold that builds `possible_consensus_hashes`,
relative to the plain `filterMap` of the scanned heights. -/
theorem possible_mem_fold (g : Int → Option String) :
    ∀ (idxs : List Int) (acc : List String) (ch : String),
      (ch ∈ idxs.foldl (fun acc i =>
        match g i with
        | some c => if c ∈ acc then acc else acc ++ [c]
        | none => acc) acc) ↔ ch ∈ acc ∨ ch ∈ idxs.filterMap g
  | [], acc, ch => by simp
  | i :: t, acc, ch => by
    cases hg : g i with
    | none =>
      simp only [List.foldl_cons, List.filterMap_cons, hg]
      simpa using possible_mem_fold g t acc ch
    | some c =>
      simp only [List.foldl_cons, List.filterMap_cons, hg]
      by_cases hc : c ∈ acc
      · rw [if_pos hc, possible_mem_fold g t acc ch]
        constructor
        · rintro (h | h)
          · exact Or.inl h
          · exact Or.inr (List.mem_cons_of_mem c h)
        · rintro (h | h)
          · exact Or.inl h
          · rcases List.mem_cons.mp h with rfl | h
            · exact Or.inl hc
            · exact Or.inr h
      · rw [if_neg hc, possible_mem_fold g t (acc ++ [c]) ch]
        simp only [List.mem_append, List.mem_singleton, List.mem_cons]
        tauto

/-- The deduplicated candidate list has the same members as the scanned
`W + 1`-height window. -/
theorem mem_possible_iff (W : Nat) (g : Int → Option String) (b : Int) (ch : String) :
    ch ∈ possible_consensus_hashes W g b ↔ ch ∈ scanned_window_hashes W g b := by
  unfold possible_consensus_hashes scanned_window_hashes
  rw [possible_mem_fold]
  simp

/-- C6 (amended): every `(name, consensus_hash)` pair the reverse derivation
returns satisfies `truncSHA256_128(name || consensus_hash) =
name_consensus_hash`, with `name` among the sender's owned names and
`consensus_hash` drawn from the window the code scans — the `W + 1` heights
`block_id - W` through `block_id` inclusive (not the last `W` blocks ending at
`block_id`); and `(None, None)` is returned exactly when no such pair exists
among those candidates. -/
theorem C6_get_name_from_name_consensus_hash (hashFn : String → String) (W : Nat)
    (g : Int → Option String) (names_by_sender : Option (List String))
    (name_consensus_hash : String) (block_id : Int) :
    (∀ n c, get_name_from_name_consensus_hash hashFn W g names_by_sender
        name_consensus_hash block_id = (some n, some c) →
      ∃ ns, names_by_sender = some ns ∧ n ∈ ns ∧
        hashFn (n ++ c) = name_consensus_hash ∧
        c ∈ scanned_window_hashes W g block_id) ∧
    (get_name_from_name_consensus_hash hashFn W g names_by_sender
        name_consensus_hash block_id = (none, none) ↔
      ¬ ∃ ns n c, names_by_sender = some ns ∧ n ∈ ns ∧
        c ∈ scanned_window_hashes W g block_id ∧
        hashFn (n ++ c) = name_consensus_hash) := by
  have hfun : ∀ ns : List String,
      get_name_from_name_consensus_hash hashFn W g (some ns) name_consensus_hash
          block_id =
        match ns.findSome? (fun name =>
            ((possible_consensus_hashes W g block_id).find?
              (fun ch => hashFn (name ++ ch) == name_consensus_hash)).map
              (fun ch => (name, ch))) with
        | some nc => (some nc.1, some nc.2)
        | none => (none, none) := fun ns => rfl
  constructor
  · intro n c hres
    cases hns : names_by_sender with
    | none =>
      rw [hns] at hres
      exact absurd hres (by simp [get_name_from_name_consensus_hash])
    | some ns =>
      rw [hns, hfun ns] at hres
      cases hfind : ns.findSome? (fun name =>
          ((possible_consensus_hashes W g block_id).find?
            (fun ch => hashFn (name ++ ch) == name_consensus_hash)).map
            (fun ch => (name, ch))) with
      | none => rw [hfind] at hres; exact absurd hres (by simp)
      | some nc =>
        rw [hfind] at hres
        simp only [Prod.mk.injEq, Option.some.injEq] at hres
        obtain ⟨a, ha, hfa⟩ := List.exists_of_findSome?_eq_some hfind
        cases hfq : (possible_consensus_hashes W g block_id).find?
            (fun ch => hashFn (a ++ ch) == name_consensus_hash) with
        | none => rw [hfq] at hfa; simp at hfa
        | some ch =>
          rw [hfq] at hfa
          simp at hfa
          refine ⟨ns, rfl, ?_, ?_, ?_⟩
          · rw [← hres.1, ← hfa]; exact ha
          · have := List.find?_some hfq
            rw [← hres.1, ← hres.2, ← hfa]
            simpa using this
          · rw [← hres.2, ← hfa]
            exact (mem_possible_iff W g block_id ch).mp (List.mem_of_find?_eq_some hfq)
  · constructor
    · intro hres hex
      obtain ⟨ns, n, c, hns, hn, hc, hh⟩ := hex
      rw [hns, hfun ns] at hres
      cases hfind : ns.findSome? (fun name =>
          ((possible_consensus_hashes W g block_id).find?
            (fun ch => hashFn (name ++ ch) == name_consensus_hash)).map
            (fun ch => (name, ch))) with
      | some nc => rw [hfind] at hres; exact absurd hres (by simp)
      | none =>
        have hall := List.findSome?_eq_none_iff.mp hfind n hn
        cases hfq : (possible_consensus_hashes W g block_id).find?
            (fun ch => hashFn (n ++ ch) == name_consensus_hash) with
        | some ch => rw [hfq] at hall; simp at hall
        | none =>
          have hnone := List.find?_eq_none.mp hfq c
            ((mem_possible_iff W g block_id c).mpr hc)
          simp [hh] at hnone
    · intro hnex
      cases hns : names_by_sender with
      | none => simp [get_name_from_name_consensus_hash]
      | some ns =>
        rw [hfun ns]
        cases hfind : ns.findSome? (fun name =>
            ((possible_consensus_hashes W g block_id).find?
              (fun ch => hashFn (name ++ ch) == name_consensus_hash)).map
              (fun ch => (name, ch))) with
        | none => rfl
        | some nc =>
          exfalso
          obtain ⟨a, ha, hfa⟩ := List.exists_of_findSome?_eq_some hfind
          cases hfq : (possible_consensus_hashes W g block_id).find?
              (fun ch => hashFn (a ++ ch) == name_consensus_hash) with
          | none => rw [hfq] at hfa; simp at hfa
          | some ch =>
            refine hnex ⟨ns, a, ch, hns, ha, ?_, ?_⟩
            · exact (mem_possible_iff W g block_id ch).mp (List.mem_of_find?_eq_some hfq)
            · simpa using List.find?_some hfq

/-- Counterexample to C6 as stated: with a valid-transaction-window of `W = 1`
and `block_id = 5`, the code scans heights 4 and 5 (`W + 1 = 2` candidates);
with the consensus hash `A` recorded at height 4 only, the reverse derivation
returns `("n", "A")`, yet `A` is not the consensus hash of any of the last
`W = 1` blocks ending at `block_id = 5`. -/
theorem C6_counterexample :
    get_name_from_name_consensus_hash (fun s => s) 1
        (fun i => if i = 4 then some "A" else none) (some ["n"]) "nA" 5 =
      (some "n", some "A") ∧
    "A" ∉ last_W_consensus_hashes 1 (fun i => if i = 4 then some "A" else none) 5 := by
  constructor
  · rfl
  · decide

/-- Witness for C6 (amended) at a concrete window: the returned pair satisfies
the amended window property. -/
theorem C6_get_name_from_name_consensus_hash_witness :
    get_name_from_name_consensus_hash (fun s => s) 1
        (fun i => if i = 4 then some "A" else if i = 5 then some "B" else none)
        (some ["n"]) "nB" 5 = (some "n", some "B") ∧
    (∃ ns, (some ["n"] : Option (List String)) = some ns ∧ "n" ∈ ns ∧
      (fun s => s) ("n" ++ "B") = "nB" ∧
      "B" ∈ scanned_window_hashes 1
        (fun i => if i = 4 then some "A" else if i = 5 then some "B" else none) 5) := by
  refine ⟨by rfl, ?_⟩
  exact (C6_get_name_from_name_consensus_hash (fun s => s) 1
    (fun i => if i = 4 then some "A" else if i = 5 then some "B" else none)
    (some ["n"]) "nB" 5).1 "n" "B" (by rfl)

end StacksSpec
